import Mathlib

/-!
MainKeypad UI: page navigation, change-gated field updates, UI memory pool.

A shallow embedding of the navigation callbacks of `applications/MainKeypad/ui.cpp`
(`app_icon_cb`, `back_to_home_cb`, the visibility part of `setupUI`) and of the helpers of
`applications/MainKeypad/ui_performance.cpp` (`ui_memory_pool_init`, `ui_fast_malloc`,
`ui_fast_free`, `ui_update_battery_fast`), followed by the telemetry updaters
(`updateGPS`, `updateNoiseLabel`, `setLoRaMessage`, `ui_update_gps_fast`,
`ui_update_wifi_fast`), `ui_performance_init`, the radio dropdown tables with their
callbacks and the Tx/Rx switch handlers.

Conventions.
* The target is a 32-bit MCU: `uint32_t`, `size_t` and pointers are naturals reduced
  modulo `2 ^ 32`; `int` is 32 bits wide; `uint16_t` values are naturals below `2 ^ 16`.
* Widget-library objects are values of `Obj`; only the `LV_OBJ_FLAG_HIDDEN` bit of each
  object is tracked, because it is the only flag the navigation code touches on the page
  containers.
* Calls into external collaborators (touch isolation, display invalidation, the general
  heap) are recorded in a call log carried by the state; they do not touch the modelled
  state. Input events reach the callbacks one at a time, on the single UI loop.
* The address a heap call returns is an argument of the function that makes the call.
* A `double` is an IEEE-754 binary64 value (`Double`): a finite value carries its sign and
  its exact magnitude, and there are the two infinities and NaN. Decimal literals and the
  results of arithmetic are rounded to the nearest representable value, ties to even, with
  gradual underflow and overflow to infinity. The sign and payload of a NaN are not tracked.
  The entries of the `float` tables of the radio dropdowns are small whole numbers, which
  `float` holds exactly; they are given as rationals.
* A label handle is an `Option`; passing `none` (a null pointer) to the widget library is an
  error, which a function that can do so reports by returning `none`.
-/

namespace MainKeypad

/-! ## Machine arithmetic -/

/-- Two to the power 32: the modulus of `uint32_t`, `size_t` and pointer arithmetic. -/
def UINT32_MOD : Nat := 4294967296

/-- Subtraction of two `uint32_t` values, as computed by `a - b` in C. -/
def u32_sub (a b : Nat) : Nat :=
  (a % UINT32_MOD + UINT32_MOD - b % UINT32_MOD) % UINT32_MOD

/-- Addition of two `size_t` values (or of a pointer and an offset), as computed in C. -/
def u32_add (a b : Nat) : Nat :=
  (a + b) % UINT32_MOD

/-- Reduction of a mathematical integer to the value of a 32-bit two's complement `int`. -/
def int32_wrap (x : Int) : Int :=
  (x + 2147483648) % 4294967296 - 2147483648

/-- The C library function `abs` on a 32-bit `int`. -/
def c_abs (x : Int) : Int :=
  int32_wrap (if x < 0 then -x else x)

/-! ## Page navigator (`ui.cpp`) -/

/-- The widget objects of interest: the seven full-screen containers created by `setupUI`
(distinct objects returned by seven `lv_obj_create` calls) and any other widget. -/
inductive Obj
  | home_screen
  | sub_mechanics_page
  | sub_sound_page
  | sub_display_page
  | sub_gps_page
  | sub_kb_page
  | sub_setting_page
  | other (id : Nat)
  deriving DecidableEq

/-- External calls made by the navigation callbacks and by `setLoRaMessage`.
`isolate_touch_input none` is the call with screen id `0`; `isolate_touch_input (some p)` is
the call with the address of `p`. -/
inductive Call
  | isolate_touch_input (screen_id : Option Obj)
  | lv_disp_enable_invalidation (en : Bool)
  | lv_obj_invalidate_scr_act
  | lv_task_handler
  | lv_label_set_text (label : Obj) (text : String)
  deriving DecidableEq

/-- The state read and written by the navigation callbacks. -/
structure UIState where
  /-- The `LV_OBJ_FLAG_HIDDEN` bit of every object. -/
  hidden : Obj → Bool
  /-- The function-local `static uint32_t last_click_time` of `app_icon_cb`. -/
  last_click_time : Nat
  /-- The handle `sub_radio_val.label_radio_msg` (`none` is the null pointer). -/
  label_radio_msg : Option Obj
  /-- External calls issued since `setupUI` returned, oldest first. -/
  calls : List Call

/-- The call `lv_obj_add_flag(obj, LV_OBJ_FLAG_HIDDEN)`. -/
def lv_obj_add_flag (obj : Obj) (s : UIState) : UIState :=
  { s with hidden := Function.update s.hidden obj true }

/-- The call `lv_obj_clear_flag(obj, LV_OBJ_FLAG_HIDDEN)`. -/
def lv_obj_clear_flag (obj : Obj) (s : UIState) : UIState :=
  { s with hidden := Function.update s.hidden obj false }

/-- Record one external call in the log. -/
def emit (c : Call) (s : UIState) : UIState :=
  { s with calls := s.calls ++ [c] }

/-- The debounce test of `app_icon_cb`: `current_time - last_click_time < 300` on
`uint32_t` operands. -/
def debounced (current_time : Nat) (s : UIState) : Bool :=
  decide (u32_sub current_time s.last_click_time < 300)

/-- The callback `app_icon_cb`. `current_time` is the value returned by `lv_tick_get()`,
`disp` tells whether `lv_disp_get_default()` is non-null, and `target_page` is the user data
of the clicked button (`none` for a null pointer). -/
def app_icon_cb (current_time : Nat) (disp : Bool) (target_page : Option Obj)
    (s : UIState) : UIState :=
  if debounced current_time s then
    s
  else
    let s := { s with last_click_time := current_time }
    match target_page with
    | none => s
    | some target =>
      let s := emit (Call.isolate_touch_input (some target)) s
      let s := if disp then emit (Call.lv_disp_enable_invalidation false) s else s
      let s := lv_obj_add_flag Obj.home_screen s
      let s := lv_obj_add_flag Obj.sub_mechanics_page s
      let s := lv_obj_add_flag Obj.sub_sound_page s
      let s := lv_obj_add_flag Obj.sub_display_page s
      let s := lv_obj_add_flag Obj.sub_gps_page s
      let s := lv_obj_add_flag Obj.sub_kb_page s
      let s := lv_obj_add_flag Obj.sub_setting_page s
      let s := lv_obj_clear_flag target s
      let s :=
        if disp then
          emit Call.lv_obj_invalidate_scr_act (emit (Call.lv_disp_enable_invalidation true) s)
        else s
      emit Call.lv_task_handler s

/-- The callback `back_to_home_cb`. -/
def back_to_home_cb (s : UIState) : UIState :=
  let s := emit (Call.isolate_touch_input none) s
  let s := lv_obj_add_flag Obj.sub_mechanics_page s
  let s := lv_obj_add_flag Obj.sub_sound_page s
  let s := lv_obj_add_flag Obj.sub_display_page s
  let s := lv_obj_add_flag Obj.sub_gps_page s
  let s := lv_obj_add_flag Obj.sub_kb_page s
  let s := lv_obj_add_flag Obj.sub_setting_page s
  lv_obj_clear_flag Obj.home_screen s

/-- The state before `setupUI` runs: objects are created with `LV_OBJ_FLAG_HIDDEN` cleared,
the statics are zero-initialised. -/
def startup : UIState :=
  { hidden := fun _ => false, last_click_time := 0, label_radio_msg := none, calls := [] }

/-- The part of `setupUI` that decides the navigation state: each page container is hidden
right after its creation, the message label of the radio page is created only when
`hasRadio` holds, and the home screen is shown explicitly at the end. -/
def setupUI (hasRadio : Bool) : UIState :=
  let s := startup
  let s := lv_obj_add_flag Obj.sub_mechanics_page s
  let s := if hasRadio then { s with label_radio_msg := some (Obj.other 0) } else s
  let s := lv_obj_add_flag Obj.sub_sound_page s
  let s := lv_obj_add_flag Obj.sub_display_page s
  let s := lv_obj_add_flag Obj.sub_gps_page s
  let s := lv_obj_add_flag Obj.sub_kb_page s
  let s := lv_obj_add_flag Obj.sub_setting_page s
  lv_obj_clear_flag Obj.home_screen s

/-- The six app icons created by `create_app_icon` in `setupUI`. -/
inductive AppIcon
  | radio_icon
  | sound_icon
  | display_icon
  | gps_icon
  | kb_icon
  | config_icon
  deriving DecidableEq

/-- The user data `create_app_icon` stores on each icon: its target page. -/
def AppIcon.user_data : AppIcon → Option Obj
  | AppIcon.radio_icon => some Obj.sub_mechanics_page
  | AppIcon.sound_icon => some Obj.sub_sound_page
  | AppIcon.display_icon => some Obj.sub_display_page
  | AppIcon.gps_icon => some Obj.sub_gps_page
  | AppIcon.kb_icon => some Obj.sub_kb_page
  | AppIcon.config_icon => some Obj.sub_setting_page

/-- The six pages registered as icon targets. -/
def pages : List Obj :=
  [Obj.sub_mechanics_page, Obj.sub_sound_page, Obj.sub_display_page,
   Obj.sub_gps_page, Obj.sub_kb_page, Obj.sub_setting_page]

/-- The seven mutually exclusive containers: the home screen and the six pages. -/
def containers : List Obj :=
  Obj.home_screen :: pages

/-- Number of containers whose `LV_OBJ_FLAG_HIDDEN` bit is cleared. -/
def visibleCount (s : UIState) : Nat :=
  (containers.filter (fun o => !s.hidden o)).length

/-- A user input delivered to the navigator. -/
inductive UIEvent
  | icon_click (icon : AppIcon) (current_time : Nat) (disp : Bool)
  | back_click
  deriving DecidableEq

/-- Dispatch of one input event to its callback. -/
def step (s : UIState) : UIEvent → UIState
  | UIEvent.icon_click icon current_time disp =>
      app_icon_cb current_time disp icon.user_data s
  | UIEvent.back_click => back_to_home_cb s

/-- Delivery of a sequence of input events, oldest first. -/
def run (s : UIState) (evs : List UIEvent) : UIState :=
  evs.foldl step s

/-! ## Change-gated battery field (`ui_performance.cpp`) -/

/-- The function-local statics of `ui_update_battery_fast`. -/
structure BatteryState where
  /-- The `static uint16_t last_voltage`. -/
  last_voltage : Nat
  /-- The text held by `static char voltage_buf[16]`, without its terminator. -/
  voltage_buf : String

/-- The zero-initialised statics of `ui_update_battery_fast`. -/
def battery_startup : BatteryState :=
  { last_voltage := 0, voltage_buf := "" }

/-- The call `snprintf(buf, size, ...)` once the format has been expanded to `text`: at most
`size - 1` characters are stored (all characters involved are single-byte). -/
def snprintf (size : Nat) (text : String) : String :=
  String.mk (text.data.take (size - 1))

/-- The function `ui_update_battery_fast`. `voltage_mv` is a `uint16_t` value; the difference
is taken on 32-bit `int` operands. -/
def ui_update_battery_fast (voltage_mv : Nat) (s : BatteryState) : BatteryState :=
  if c_abs (int32_wrap ((voltage_mv : Int) - (s.last_voltage : Int))) > 10 then
    { last_voltage := voltage_mv
      voltage_buf := snprintf 16 (Nat.repr voltage_mv ++ " mV") }
  else
    s

/-! ## UI memory pool (`ui_performance.cpp`) -/

/-- Calls into the general heap made by the pool functions. -/
inductive HeapCall
  | heap_caps_malloc (size : Nat)
  | malloc (size : Nat)
  | free (ptr : Nat)
  deriving DecidableEq

/-- The file-level statics of the memory pool. Addresses are naturals, `0` is `nullptr`. -/
structure PoolState where
  /-- The base address `g_ui_memory_pool`. -/
  g_ui_memory_pool : Nat
  /-- The cursor `g_ui_memory_used`. -/
  g_ui_memory_used : Nat
  /-- Calls into the general heap, oldest first. -/
  heap_calls : List HeapCall
  deriving DecidableEq

/-- The static `g_ui_memory_pool_size`, initialised to 32768 and never assigned. -/
def g_ui_memory_pool_size : Nat := 32768

/-- The statics before any pool function has run. -/
def pool_startup : PoolState :=
  { g_ui_memory_pool := 0, g_ui_memory_used := 0, heap_calls := [] }

/-- Record one heap call in the log. -/
def heap_emit (c : HeapCall) (s : PoolState) : PoolState :=
  { s with heap_calls := s.heap_calls ++ [c] }

/-- The function `ui_memory_pool_init`. `psram` is the address `heap_caps_malloc` returns if
it is called and `ram` the address `malloc` returns if it is called (`0` on failure). -/
def ui_memory_pool_init (psram ram : Nat) (s : PoolState) : PoolState :=
  if s.g_ui_memory_pool = 0 then
    let s := heap_emit (HeapCall.heap_caps_malloc g_ui_memory_pool_size) s
    let s := { s with g_ui_memory_pool := psram }
    let s :=
      if s.g_ui_memory_pool = 0 then
        { heap_emit (HeapCall.malloc g_ui_memory_pool_size) s with g_ui_memory_pool := ram }
      else s
    { s with g_ui_memory_used := 0 }
  else
    s

/-- The function `ui_fast_malloc`. `fallback` is the address `malloc(size)` returns if it is
called. The result is the returned pointer and the new state. -/
def ui_fast_malloc (size fallback : Nat) (s : PoolState) : Nat × PoolState :=
  if s.g_ui_memory_pool ≠ 0 ∧ u32_add s.g_ui_memory_used size < g_ui_memory_pool_size then
    (u32_add s.g_ui_memory_pool s.g_ui_memory_used,
     { s with g_ui_memory_used := u32_add s.g_ui_memory_used size })
  else
    (fallback, heap_emit (HeapCall.malloc size) s)

/-- The function `ui_fast_free`. -/
def ui_fast_free (ptr : Nat) (s : PoolState) : PoolState :=
  if ptr < s.g_ui_memory_pool ∨ ptr ≥ u32_add s.g_ui_memory_pool g_ui_memory_pool_size then
    heap_emit (HeapCall.free ptr) s
  else
    s

/-- A request to `ui_fast_malloc`: the size asked for and the address the general allocator
would hand out for it. -/
structure Request where
  size : Nat
  fallback : Nat
  deriving DecidableEq

/-- Successive `ui_fast_malloc` calls, oldest first: the returned pointers and the final
state. -/
def ui_fast_malloc_seq : List Request → PoolState → List Nat × PoolState
  | [], s => ([], s)
  | r :: rest, s =>
    let a := ui_fast_malloc r.size r.fallback s
    let b := ui_fast_malloc_seq rest a.2
    (a.1 :: b.1, b.2)

/-- One call of the pool interface. -/
inductive PoolOp
  | init (psram ram : Nat)
  | alloc (size fallback : Nat)
  | release (ptr : Nat)
  deriving DecidableEq

/-- The effect of one pool call on the statics. -/
def pool_step (s : PoolState) : PoolOp → PoolState
  | PoolOp.init psram ram => ui_memory_pool_init psram ram s
  | PoolOp.alloc size fallback => (ui_fast_malloc size fallback s).2
  | PoolOp.release ptr => ui_fast_free ptr s

/-- The effect of a sequence of pool calls, oldest first. -/
def pool_run (s : PoolState) (ops : List PoolOp) : PoolState :=
  ops.foldl pool_step s

/-- The byte ranges of two blocks, each given as start address and size, share no byte. -/
def Disjoint_blocks (a b : Nat × Nat) : Prop :=
  a.1 + a.2 ≤ b.1 ∨ b.1 + b.2 ≤ a.1

/-! ## Radio message and noise labels (`ui.cpp`) -/

/-- The function `setLoRaMessage`: it passes `sub_radio_val.label_radio_msg` to
`lv_label_set_text` without testing it. The result is `none` when the handle is null. -/
def setLoRaMessage (text : String) (s : UIState) : Option UIState :=
  match s.label_radio_msg with
  | none => none
  | some label => some (emit (Call.lv_label_set_text label text) s)

/-- The noise label of the sound page. -/
structure SoundState where
  /-- The handle `sound_vad_label` (`none` is the null pointer). -/
  sound_vad_label : Option Obj
  /-- The text the label shows. -/
  vad_text : String
  /-- The texts written to the label since `setupUI` returned, oldest first. -/
  vad_writes : List String
  deriving DecidableEq

/-- The noise label as `setupUI` leaves it: created by `create_label` with the text "N.A". -/
def sound_after_setupUI : SoundState :=
  { sound_vad_label := some (Obj.other 1), vad_text := "N.A", vad_writes := [] }

/-- The function `updateNoiseLabel`; `cnt` is a `uint32_t` value printed with `%u`. -/
def updateNoiseLabel (cnt : Nat) (s : SoundState) : SoundState :=
  match s.sound_vad_label with
  | some _ => { s with vad_text := Nat.repr cnt, vad_writes := s.vad_writes ++ [Nat.repr cnt] }
  | none => s

/-! ## Number formatting -/

/-- Rounding of a non-negative rational to the nearest natural number, ties to even. -/
def round_half_even (q : ℚ) : Nat :=
  let n := q.num.natAbs / q.den
  let r := q.num.natAbs % q.den
  if 2 * r < q.den then n
  else if q.den < 2 * r then n + 1
  else if n % 2 = 0 then n else n + 1

/-- Left padding with the digit zero up to `width` characters, as `%0<width>u` does. -/
def zero_pad (width : Nat) (s : String) : String :=
  String.mk (List.replicate (width - s.length) '0') ++ s

/-- The digits after the decimal point of a value whose rounded multiple of `10 ^ -prec`
is `n`. -/
def fraction_digits (prec n : Nat) : String :=
  zero_pad prec (Nat.repr (n % 10 ^ prec))

/-! ## Double-precision numbers -/

/-- Two to an integer power. -/
def pow2 (e : Int) : ℚ :=
  if 0 ≤ e then (2 : ℚ) ^ e.toNat else 1 / (2 : ℚ) ^ (-e).toNat

/-- The number of binary digits of `n`, counted with at most `fuel` halvings. -/
def bit_length_fuel : Nat → Nat → Nat
  | 0, _ => 0
  | fuel + 1, n => if n = 0 then 0 else bit_length_fuel fuel (n / 2) + 1

/-- The number of binary digits of `n`; zero has none. -/
def bit_length (n : Nat) : Nat :=
  bit_length_fuel n n

/-- The binary exponent of a positive value `q`: the `e` with `2 ^ e ≤ q < 2 ^ (e + 1)`. -/
def ilog2 (q : ℚ) : Int :=
  let e0 : Int := (bit_length q.num.natAbs : Int) - (bit_length q.den : Int)
  if pow2 e0 ≤ q then e0 else e0 - 1

/-- A value of the C type `double` (IEEE-754 binary64): a finite value with its sign bit and
exact magnitude, an infinity with its sign bit, or a NaN. -/
inductive Double
  | finite (neg : Bool) (mag : ℚ)
  | inf (neg : Bool)
  | nan
  deriving DecidableEq

/-- Rounding of an exact magnitude to binary64, to nearest with ties to even: 53 significant
bits, exponents from -1022 (below that the spacing stays `2 ^ -1074`) up to 1023; the
result is `none` when the rounded value reaches `2 ^ 1024`, which overflows to infinity. -/
def round_mag (q : ℚ) : Option ℚ :=
  if q = 0 then some 0
  else
    let e := max (ilog2 q) (-1022)
    let quantum := pow2 (e - 52)
    let r := (round_half_even (q / quantum) : ℚ) * quantum
    if pow2 1024 ≤ r then none else some r

/-- The `double` nearest to an exact value: the value of a decimal literal, and the rounding
step of every arithmetic operation. -/
def to_double (x : ℚ) : Double :=
  match round_mag |x| with
  | some m => Double.finite (decide (x < 0)) m
  | none => Double.inf (decide (x < 0))

/-- The exact value of a finite `double` with sign bit `neg` and magnitude `mag`. -/
def Double.signed (neg : Bool) (mag : ℚ) : ℚ :=
  if neg then -mag else mag

/-- The operator `-` on `double`: NaN propagates, equal infinities give NaN, an exact zero
difference keeps the sign bit only for `(-0) - (+0)`, and every other finite difference is
rounded. -/
def Double.sub : Double → Double → Double
  | Double.nan, _ => Double.nan
  | _, Double.nan => Double.nan
  | Double.inf n1, Double.inf n2 => if n1 = n2 then Double.nan else Double.inf n1
  | Double.inf n1, Double.finite _ _ => Double.inf n1
  | Double.finite _ _, Double.inf n2 => Double.inf (!n2)
  | Double.finite n1 m1, Double.finite n2 m2 =>
    if Double.signed n1 m1 - Double.signed n2 m2 = 0 then Double.finite (n1 && !n2) 0
    else to_double (Double.signed n1 m1 - Double.signed n2 m2)

/-- The library function `fabs`: the sign bit is cleared. -/
def fabs : Double → Double
  | Double.finite _ m => Double.finite false m
  | Double.inf _ => Double.inf false
  | Double.nan => Double.nan

/-- The operator `>` on `double`; every comparison with a NaN is false. -/
def Double.gt : Double → Double → Bool
  | Double.nan, _ => false
  | _, Double.nan => false
  | Double.inf n1, Double.inf n2 => !n1 && n2
  | Double.inf n1, Double.finite _ _ => !n1
  | Double.finite _ _, Double.inf n2 => n2
  | Double.finite n1 m1, Double.finite n2 m2 =>
    decide (Double.signed n2 m2 < Double.signed n1 m1)

/-- The conversion `%.<prec>f` (for `prec > 0`) of a `double`. A finite value is printed as
sign, integer part, point and `prec` digits, its exact magnitude being rounded to the nearest
multiple of `10 ^ -prec`; the sign is printed whenever the sign bit is set. An infinity is
printed as `inf` and a NaN as `nan`. -/
def format_fixed (prec : Nat) : Double → String
  | Double.finite neg mag =>
    let n := round_half_even (|mag| * (10 : ℚ) ^ prec)
    (if neg then "-" else "") ++ Nat.repr (n / 10 ^ prec) ++ "." ++ fraction_digits prec n
  | Double.inf neg => if neg then "-inf" else "inf"
  | Double.nan => "nan"

/-! ## GPS fields (`ui.cpp`, `ui_performance.cpp`) -/

/-- The label handles of `sub_gps_val`, all set by `setupUI`. -/
inductive GpsLabel
  | label_lat
  | label_lng
  | label_date
  | label_time
  | label_speed
  | label_processchar
  | label_use_seconds
  deriving DecidableEq

/-- Calls made by the GPS updaters. -/
inductive GpsCall
  | ui_batch_style_updates_begin
  | ui_batch_style_updates_end
  | lv_label_set_text (label : GpsLabel) (text : String)
  deriving DecidableEq

/-- The arguments of `updateGPS`. The integer arguments are values of their C types
(`uint16_t year`, `uint8_t` date and time parts, `uint32_t rx_char` and `use_sec`). -/
structure GpsArgs where
  lat : Double
  lng : Double
  year : Nat
  month : Nat
  day : Nat
  hour : Nat
  minute : Nat
  second : Nat
  speed : Double
  rx_char : Nat
  use_sec : Nat

/-- The function-local statics of `updateGPS`, the text of the GPS labels and the log of
calls. -/
structure GpsState where
  last_lat : Double
  last_lng : Double
  last_speed : Double
  last_year : Nat
  last_month : Nat
  last_day : Nat
  last_hour : Nat
  last_minute : Nat
  last_second : Nat
  last_rx_char : Nat
  last_use_sec : Nat
  /-- The text each GPS label shows. -/
  text : GpsLabel → String
  /-- Calls issued so far, oldest first. -/
  gps_calls : List GpsCall

/-- The initial values of the statics of `updateGPS` (`last_lat = 999.0`, `last_lng = 999.0`,
`last_speed = -1.0`, ...); every label shows "N.A" after `setupUI`. -/
def gps_startup : GpsState :=
  { last_lat := to_double 999, last_lng := to_double 999, last_speed := to_double (-1),
    last_year := 0, last_month := 0, last_day := 0,
    last_hour := 25, last_minute := 61, last_second := 61,
    last_rx_char := 0, last_use_sec := 0,
    text := fun _ => "N.A", gps_calls := [] }

/-- The function `ui_batch_style_updates_begin` (it invalidates the active screen). -/
def ui_batch_style_updates_begin (s : GpsState) : GpsState :=
  { s with gps_calls := s.gps_calls ++ [GpsCall.ui_batch_style_updates_begin] }

/-- The function `ui_batch_style_updates_end` (it refreshes the display at once). -/
def ui_batch_style_updates_end (s : GpsState) : GpsState :=
  { s with gps_calls := s.gps_calls ++ [GpsCall.ui_batch_style_updates_end] }

/-- The calls `lv_label_set_text(label, text)` and `lv_label_set_text_fmt(label, ...)` once
the format has been expanded to `text`. -/
def gps_set_text (label : GpsLabel) (text : String) (s : GpsState) : GpsState :=
  { s with text := Function.update s.text label text
           gps_calls := s.gps_calls ++ [GpsCall.lv_label_set_text label text] }

/-- The statics of `updateGPS` together with its local variable `needs_update`. -/
structure GpsFrame where
  st : GpsState
  needs_update : Bool

/-- First block of `updateGPS`: the use-seconds field, rewritten when the value differs from
the cached one. -/
def updateGPS_use_sec (a : GpsArgs) (f : GpsFrame) : GpsFrame :=
  if a.use_sec ≠ f.st.last_use_sec then
    let st :=
      if a.use_sec = 0 then gps_set_text GpsLabel.label_use_seconds "N.A" f.st
      else gps_set_text GpsLabel.label_use_seconds (Nat.repr a.use_sec) f.st
    { st := { st with last_use_sec := a.use_sec }, needs_update := true }
  else f

/-- Second block of `updateGPS`: the longitude, rewritten with `%.6f` when
`fabs(lng - last_lng) > 0.000001`. -/
def updateGPS_lng (a : GpsArgs) (f : GpsFrame) : GpsFrame :=
  if Double.gt (fabs (Double.sub a.lng f.st.last_lng)) (to_double (1 / 1000000)) then
    { st := { gps_set_text GpsLabel.label_lng (format_fixed 6 a.lng) f.st with
              last_lng := a.lng },
      needs_update := true }
  else f

/-- Third block of `updateGPS`: the latitude, rewritten with `%.6f` when
`fabs(lat - last_lat) > 0.000001`. -/
def updateGPS_lat (a : GpsArgs) (f : GpsFrame) : GpsFrame :=
  if Double.gt (fabs (Double.sub a.lat f.st.last_lat)) (to_double (1 / 1000000)) then
    { st := { gps_set_text GpsLabel.label_lat (format_fixed 6 a.lat) f.st with
              last_lat := a.lat },
      needs_update := true }
  else f

/-- Fourth block of `updateGPS`: the date, rewritten with `%u/%u/%u` when a part differs. -/
def updateGPS_date (a : GpsArgs) (f : GpsFrame) : GpsFrame :=
  if a.year ≠ f.st.last_year ∨ a.month ≠ f.st.last_month ∨ a.day ≠ f.st.last_day then
    { st := { gps_set_text GpsLabel.label_date
                (Nat.repr a.year ++ "/" ++ Nat.repr a.month ++ "/" ++ Nat.repr a.day) f.st with
              last_year := a.year, last_month := a.month, last_day := a.day },
      needs_update := true }
  else f

/-- Fifth block of `updateGPS`: the time, rewritten with `%u:%02u:%02u` when a part
differs. -/
def updateGPS_time (a : GpsArgs) (f : GpsFrame) : GpsFrame :=
  if a.hour ≠ f.st.last_hour ∨ a.minute ≠ f.st.last_minute ∨ a.second ≠ f.st.last_second then
    { st := { gps_set_text GpsLabel.label_time
                (Nat.repr a.hour ++ ":" ++ zero_pad 2 (Nat.repr a.minute) ++ ":" ++
                  zero_pad 2 (Nat.repr a.second)) f.st with
              last_hour := a.hour, last_minute := a.minute, last_second := a.second },
      needs_update := true }
  else f

/-- Sixth block of `updateGPS`: the speed, rewritten with `%.2f` when
`fabs(speed - last_speed) > 0.01`. -/
def updateGPS_speed (a : GpsArgs) (f : GpsFrame) : GpsFrame :=
  if Double.gt (fabs (Double.sub a.speed f.st.last_speed)) (to_double (1 / 100)) then
    { st := { gps_set_text GpsLabel.label_speed (format_fixed 2 a.speed) f.st with
              last_speed := a.speed },
      needs_update := true }
  else f

/-- Seventh block of `updateGPS`: the count of received characters, rewritten when it
differs from the cached one. -/
def updateGPS_rx_char (a : GpsArgs) (f : GpsFrame) : GpsFrame :=
  if a.rx_char ≠ f.st.last_rx_char then
    { st := { gps_set_text GpsLabel.label_processchar (Nat.repr a.rx_char) f.st with
              last_rx_char := a.rx_char },
      needs_update := true }
  else f

/-- The function `updateGPS`: the batch is opened, the seven blocks run in source order, and
the batch is closed only when `needs_update` has been set. -/
def updateGPS (a : GpsArgs) (s : GpsState) : GpsState :=
  let f : GpsFrame := { st := ui_batch_style_updates_begin s, needs_update := false }
  let f := updateGPS_use_sec a f
  let f := updateGPS_lng a f
  let f := updateGPS_lat a f
  let f := updateGPS_date a f
  let f := updateGPS_time a f
  let f := updateGPS_speed a f
  let f := updateGPS_rx_char a f
  if f.needs_update then ui_batch_style_updates_end f.st else f.st

/-- Whether a logged call is a label write. -/
def GpsCall.isWrite : GpsCall → Bool
  | GpsCall.lv_label_set_text _ _ => true
  | _ => false

/-- The function-local statics of `ui_update_gps_fast` and the log of its calls. -/
structure GpsFastState where
  lat_buf : String
  lng_buf : String
  speed_buf : String
  last_lat : Double
  last_lng : Double
  last_speed : Double
  /-- Batch calls issued so far, oldest first. -/
  fast_calls : List GpsCall

/-- The initial values of the statics of `ui_update_gps_fast`. -/
def gps_fast_startup : GpsFastState :=
  { lat_buf := "", lng_buf := "", speed_buf := "",
    last_lat := to_double 999, last_lng := to_double 999, last_speed := to_double (-1),
    fast_calls := [] }

/-- The function `ui_update_gps_fast`; it fills its buffers and writes no label. The
argument `time_str` is not used by the function. -/
def ui_update_gps_fast (lat lng speed : Double) (s : GpsFastState) : GpsFastState :=
  let s := { s with fast_calls := s.fast_calls ++ [GpsCall.ui_batch_style_updates_begin] }
  let s :=
    if Double.gt (fabs (Double.sub lat s.last_lat)) (to_double (1 / 1000000)) then
      { s with lat_buf := snprintf 16 (format_fixed 6 lat), last_lat := lat }
    else s
  let s :=
    if Double.gt (fabs (Double.sub lng s.last_lng)) (to_double (1 / 1000000)) then
      { s with lng_buf := snprintf 16 (format_fixed 6 lng), last_lng := lng }
    else s
  let s :=
    if Double.gt (fabs (Double.sub speed s.last_speed)) (to_double (1 / 100)) then
      { s with speed_buf := snprintf 16 (format_fixed 2 speed), last_speed := speed }
    else s
  { s with fast_calls := s.fast_calls ++ [GpsCall.ui_batch_style_updates_end] }

/-! ## Change-gated Wi-Fi field (`ui_performance.cpp`) -/

/-- The constant `NOT_AVAILABLE_TEXT`. -/
def NOT_AVAILABLE_TEXT : String := "N.A"

/-- The function-local statics of `ui_update_wifi_fast`. -/
structure WifiState where
  /-- The `static int32_t last_rssi`. -/
  last_rssi : Int
  /-- The `static bool last_connected`. -/
  last_connected : Bool
  /-- The text held by `static char rssi_buf[16]`, without its terminator. -/
  rssi_buf : String
  deriving DecidableEq

/-- The initial values of the statics of `ui_update_wifi_fast`. -/
def wifi_startup : WifiState :=
  { last_rssi := 999, last_connected := false, rssi_buf := "" }

/-- The function `ui_update_wifi_fast`. `rssi` is an `int32_t` value; the difference and
`abs` are taken on 32-bit `int` operands. -/
def ui_update_wifi_fast (rssi : Int) (connected : Bool) (s : WifiState) : WifiState :=
  if connected ≠ s.last_connected ∨ c_abs (int32_wrap (rssi - s.last_rssi)) > 2 then
    { rssi_buf :=
        if connected then snprintf 16 (Int.repr rssi ++ " dBm") else NOT_AVAILABLE_TEXT
      last_rssi := rssi
      last_connected := connected }
  else
    s

/-! ## Performance initialisation (`ui_performance.h`, `ui_performance.cpp`) -/

/-- The macro `UI_MEMORY_POOL_SIZE` of `ui_performance.h` ("8KB memory pool for UI
objects"). -/
def UI_MEMORY_POOL_SIZE : Nat := 8192

/-- The style members of `ui_style_cache_t`. -/
inductive Style
  | section_style
  | button_style
  | label_style
  | slider_style
  | switch_style
  deriving DecidableEq

/-- Calls into the widget library made by `ui_performance_init`. -/
inductive PerfCall
  | lv_disp_set_default
  | lv_style_init (st : Style)
  | lv_style_set_bg_color (st : Style)
  | lv_style_set_bg_opa (st : Style)
  | lv_style_set_radius (st : Style)
  | lv_style_set_border_width (st : Style)
  | lv_style_set_border_color (st : Style)
  | lv_style_set_pad_all (st : Style)
  | lv_style_set_shadow_width (st : Style)
  | lv_style_set_shadow_opa (st : Style)
  | lv_style_set_text_color (st : Style)
  | lv_style_set_text_font (st : Style)
  deriving DecidableEq

/-- The state `ui_performance_init` works on: the memory pool, the flag
`g_style_cache.initialized` and the log of widget-library calls. -/
structure PerfState where
  pool : PoolState
  initialized : Bool
  perf_calls : List PerfCall
  deriving DecidableEq

/-- The state at program start: `g_style_cache = {0}`. -/
def perf_startup : PerfState :=
  { pool := pool_startup, initialized := false, perf_calls := [] }

/-- Record a sequence of widget-library calls in the log. -/
def perf_emit (cs : List PerfCall) (s : PerfState) : PerfState :=
  { s with perf_calls := s.perf_calls ++ cs }

/-- The function `ui_set_fast_refresh_rate`; `disp` tells whether `lv_disp_get_default()`
is non-null. -/
def ui_set_fast_refresh_rate (disp : Bool) (s : PerfState) : PerfState :=
  if disp then perf_emit [PerfCall.lv_disp_set_default] s else s

/-- The function `ui_performance_init`. `psram` and `ram` are the addresses the two heap
calls of `ui_memory_pool_init` return if they are made. -/
def ui_performance_init (psram ram : Nat) (disp : Bool) (s : PerfState) : PerfState :=
  let s := { s with pool := ui_memory_pool_init psram ram s.pool }
  let s := ui_set_fast_refresh_rate disp s
  if !s.initialized then
    let s := perf_emit
      [PerfCall.lv_style_init Style.section_style,
       PerfCall.lv_style_set_bg_color Style.section_style,
       PerfCall.lv_style_set_bg_opa Style.section_style,
       PerfCall.lv_style_set_radius Style.section_style,
       PerfCall.lv_style_set_border_width Style.section_style,
       PerfCall.lv_style_set_border_color Style.section_style,
       PerfCall.lv_style_set_pad_all Style.section_style] s
    let s := perf_emit
      [PerfCall.lv_style_init Style.button_style,
       PerfCall.lv_style_set_bg_color Style.button_style,
       PerfCall.lv_style_set_bg_opa Style.button_style,
       PerfCall.lv_style_set_radius Style.button_style,
       PerfCall.lv_style_set_shadow_width Style.button_style,
       PerfCall.lv_style_set_shadow_opa Style.button_style] s
    let s := perf_emit
      [PerfCall.lv_style_init Style.label_style,
       PerfCall.lv_style_set_text_color Style.label_style,
       PerfCall.lv_style_set_text_font Style.label_style] s
    { s with initialized := true }
  else
    s

/-- The arguments one call of `ui_performance_init` depends on. -/
structure InitArgs where
  psram : Nat
  ram : Nat
  disp : Bool
  deriving DecidableEq

/-- Successive calls of `ui_performance_init`, oldest first. -/
def perf_run (s : PerfState) (calls : List InitArgs) : PerfState :=
  calls.foldl (fun st c => ui_performance_init c.psram c.ram c.disp st) s

/-- Number of `lv_style_init` calls made on a style so far. -/
def style_init_count (st : Style) (s : PerfState) : Nat :=
  s.perf_calls.count (PerfCall.lv_style_init st)

/-! ## Update-rate constants (`ui_performance.h`) -/

/-- The macro `UI_REFRESH_RATE_MS`. -/
def UI_REFRESH_RATE_MS : Nat := 16

/-- The macro `UI_SLOW_REFRESH_RATE_MS`. -/
def UI_SLOW_REFRESH_RATE_MS : Nat := 100

/-- The macro `UI_GPS_UPDATE_RATE_MS`. -/
def UI_GPS_UPDATE_RATE_MS : Nat := 500

/-- The macro `UI_BATTERY_UPDATE_RATE_MS`. -/
def UI_BATTERY_UPDATE_RATE_MS : Nat := 5000

/-- The macro `UI_WIFI_UPDATE_RATE_MS`. -/
def UI_WIFI_UPDATE_RATE_MS : Nat := 2000

/-! ## Battery input sequences -/

/-- Successive calls of `ui_update_battery_fast`, oldest first. -/
def battery_run (s : BatteryState) (vs : List Nat) : BatteryState :=
  vs.foldl (fun st v => ui_update_battery_fast v st) s

/-! ## Radio dropdowns (`ui.cpp`) -/

/-- The option string `radio_freq_list`; `JAPAN_MIC` tells whether the macro of that name is
defined. -/
def radio_freq_list (JAPAN_MIC : Bool) : String :=
  if JAPAN_MIC then "920MHZ" else "433MHZ\n470MHZ\n850MHZ\n868MHZ\n915MHZ\n923MHZ"

/-- The table `freq_list`. -/
def freq_list (JAPAN_MIC : Bool) : List ℚ :=
  if JAPAN_MIC then [920] else [433, 470, 850, 868, 915, 923]

/-- The local `freq_index` of `setupUI`: the default selection of the Freq dropdown. -/
def freq_index (JAPAN_MIC : Bool) : Nat :=
  if JAPAN_MIC then 0 else 2

/-- The option string `radio_bandwidth_list`. -/
def radio_bandwidth_list : String := "125KHz\n250KHz\n500KHz"

/-- The table `bandwidth_list`. -/
def bandwidth_list : List ℚ := [125, 250, 500]

/-- The option string `radio_power_level_list`. -/
def radio_power_level_list : String := "2dBm\n5dBm\n10dBm\n12dBm\n17dBm\n20dBm\n22dBm"

/-- The table `radio_power_args_list`. -/
def radio_power_args_list : List ℚ := [2, 5, 10, 12, 17, 20, 22]

/-- The option string `radio_tx_interval_list`. -/
def radio_tx_interval_list : String := "100ms\n200ms\n500ms\n1000ms\n2000ms\n3000ms\n5000ms"

/-- The table `radio_tx_interval_args_list`. -/
def radio_tx_interval_args_list : List ℚ := [100, 200, 500, 1000, 2000, 3000, 5000]

/-- The default selection `setupUI` passes to `create_dropdown` for BandWidth. -/
def bandwidth_default_sel : Nat := 0

/-- The default selection of the TxPower dropdown. -/
def power_default_sel : Nat := 6

/-- The default selection of the Interval dropdown. -/
def interval_default_sel : Nat := 3

/-- The options of a dropdown: the pieces of its option string between newlines. -/
def split_options (cs : List Char) : List (List Char) :=
  cs.foldr
    (fun c acc =>
      if c = '\n' then [] :: acc
      else match acc with
        | [] => [[c]]
        | line :: rest => (c :: line) :: rest)
    [[]]

/-- The number of options of a dropdown, and so the bound of the index
`lv_dropdown_get_selected` reports (it reports `0 .. option_count - 1`). -/
def option_count (options : String) : Nat :=
  (split_options options.data).length

/-- The number written in decimal digits at the start of an option. -/
def leading_number (cs : List Char) : Nat :=
  (cs.takeWhile Char.isDigit).foldl (fun n c => 10 * n + (c.toNat - 48)) 0

/-- The numbers at the start of the options of an option string, in order. -/
def option_numbers (options : String) : List Nat :=
  (split_options options.data).map leading_number

/-- Conversion of a `float` to an integer type: the fraction is discarded. -/
def float_trunc (x : ℚ) : Int :=
  if x < 0 then -((x.num.natAbs / x.den : Nat) : Int) else ((x.num.natAbs / x.den : Nat) : Int)

/-- Reduction of an integer to the value of an `int16_t`. -/
def int16_wrap (n : Int) : Int :=
  (n + 32768) % 65536 - 32768

/-- The callback `radio_freq_cb`: the value passed to `setFreq(float)` for the index the
dropdown reports; `none` when the table is read out of bounds. -/
def radio_freq_cb (JAPAN_MIC : Bool) (index : Nat) : Option ℚ :=
  (freq_list JAPAN_MIC)[index]?

/-- The callback `radio_bandwidth_cb`: the value passed to `setBandWidth(float)`. -/
def radio_bandwidth_cb (index : Nat) : Option ℚ :=
  bandwidth_list[index]?

/-- The callback `radio_power_cb`: the value passed to `setTxPower(int16_t)`. -/
def radio_power_cb (index : Nat) : Option Int :=
  (radio_power_args_list[index]?).map (fun x => int16_wrap (float_trunc x))

/-- The callback `radio_interval_cb`: the value passed to `setSenderInterval(uint32_t)`. -/
def radio_interval_cb (index : Nat) : Option Nat :=
  (radio_tx_interval_args_list[index]?).map (fun x => (float_trunc x % 4294967296).toNat)

/-! ## Tx/Rx switches (`ui.cpp`) -/

/-- Calls made by the handlers of the Tx and Rx switches. -/
inductive RadioCall
  | setTx
  | setRx
  | lv_label_set_text (label : Obj) (text : String)
  deriving DecidableEq

/-- The `LV_STATE_CHECKED` bit of the two switches of the radio page, the message label handle
and the log of calls. Each switch holds the other one as its user data. -/
structure RadioState where
  /-- Whether `swTx` is checked. -/
  tx_checked : Bool
  /-- Whether `swRx` is checked. -/
  rx_checked : Bool
  /-- The handle `sub_radio_val.label_radio_msg`. -/
  radio_label : Option Obj
  /-- Calls issued so far, oldest first. -/
  radio_calls : List RadioCall
  deriving DecidableEq

/-- The switches as `setupUI` creates them when `hasRadio` holds: `create_switch` is called
with `chk = true` for Tx and `chk = false` for Rx. -/
def radio_after_setupUI : RadioState :=
  { tx_checked := true, rx_checked := false,
    radio_label := (setupUI true).label_radio_msg, radio_calls := [] }

/-- The handler `lv_radio_tx_event_cb`, bound to `swTx`, whose user data is `swRx`. The
result is `none` when the label handle is null. -/
def lv_radio_tx_event_cb (s : RadioState) : Option RadioState :=
  let s := { s with radio_calls := s.radio_calls ++ [RadioCall.setTx] }
  match s.radio_label with
  | none => none
  | some label =>
    let s := { s with
      radio_calls := s.radio_calls ++ [RadioCall.lv_label_set_text label "RF Tx Starting"] }
    some { s with rx_checked := false }

/-- The handler `lv_radio_rx_event_cb`, bound to `swRx`, whose user data is `swTx`. -/
def lv_radio_rx_event_cb (s : RadioState) : Option RadioState :=
  let s := { s with radio_calls := s.radio_calls ++ [RadioCall.setRx] }
  match s.radio_label with
  | none => none
  | some label =>
    let s := { s with
      radio_calls := s.radio_calls ++ [RadioCall.lv_label_set_text label "RF monitoring"] }
    some { s with tx_checked := false }

/-- A user toggle of one of the two switches. -/
inductive SwitchToggle
  | toggle_tx
  | toggle_rx
  deriving DecidableEq

/-- A user toggle: the widget library flips the checked bit of the switch and then delivers
the value-changed event to its handler. -/
def radio_step (s : RadioState) : SwitchToggle → Option RadioState
  | SwitchToggle.toggle_tx => lv_radio_tx_event_cb { s with tx_checked := !s.tx_checked }
  | SwitchToggle.toggle_rx => lv_radio_rx_event_cb { s with rx_checked := !s.rx_checked }

/-- A sequence of user toggles, oldest first. -/
def radio_run (s : RadioState) : List SwitchToggle → Option RadioState
  | [] => some s
  | t :: rest =>
    match radio_step s t with
    | none => none
    | some s1 => radio_run s1 rest

/-! ## Verified properties -/

/-! ### Navigation -/

theorem emit_hidden (c : Call) (s : UIState) : (emit c s).hidden = s.hidden := rfl

theorem emit_last_click_time (c : Call) (s : UIState) :
    (emit c s).last_click_time = s.last_click_time := rfl

theorem mem_containers_iff (o : Obj) :
    o ∈ containers ↔ o = Obj.home_screen ∨ o = Obj.sub_mechanics_page ∨
      o = Obj.sub_sound_page ∨ o = Obj.sub_display_page ∨ o = Obj.sub_gps_page ∨
      o = Obj.sub_kb_page ∨ o = Obj.sub_setting_page := by
  simp [containers, pages]

/-- The HIDDEN bits left by an accepted click on a non-null target. -/
theorem app_icon_cb_hidden_accepted (current_time : Nat) (disp : Bool) (target : Obj)
    (s : UIState) (hacc : debounced current_time s = false) (o : Obj) :
    (app_icon_cb current_time disp (some target) s).hidden o =
      if o = target then false else if o ∈ containers then true else s.hidden o := by
  unfold app_icon_cb
  simp only [hacc, Bool.false_eq_true, if_false]
  cases disp <;>
    simp only [emit, lv_obj_add_flag, lv_obj_clear_flag, Function.update, if_true,
      Bool.false_eq_true, if_false, mem_containers_iff, eq_rec_constant, dite_eq_ite] <;>
    by_cases h : o = target <;> simp [h] <;>
    cases o <;> simp

/-- The HIDDEN bits left by a back click. -/
theorem back_to_home_cb_hidden (s : UIState) (o : Obj) :
    (back_to_home_cb s).hidden o =
      if o = Obj.home_screen then false else if o ∈ containers then true else s.hidden o := by
  unfold back_to_home_cb
  simp only [emit, lv_obj_add_flag, lv_obj_clear_flag, Function.update,
    mem_containers_iff, eq_rec_constant, dite_eq_ite]
  cases o <;> simp

/-- A state in which `shown` is the only visible container has exactly one visible
container. -/
theorem visibleCount_of_single (s : UIState) (shown : Obj) (hs : shown ∈ containers)
    (h : ∀ o, o ∈ containers → s.hidden o = if o = shown then false else true) :
    visibleCount s = 1 := by
  have h0 := h Obj.home_screen (by simp [containers])
  have h1 := h Obj.sub_mechanics_page (by simp [containers, pages])
  have h2 := h Obj.sub_sound_page (by simp [containers, pages])
  have h3 := h Obj.sub_display_page (by simp [containers, pages])
  have h4 := h Obj.sub_gps_page (by simp [containers, pages])
  have h5 := h Obj.sub_kb_page (by simp [containers, pages])
  have h6 := h Obj.sub_setting_page (by simp [containers, pages])
  rw [mem_containers_iff] at hs
  unfold visibleCount containers pages
  rcases hs with rfl | rfl | rfl | rfl | rfl | rfl | rfl <;>
    simp [List.filter, h0, h1, h2, h3, h4, h5, h6] at *

/-- A suppressed click leaves the whole state untouched. -/
theorem app_icon_cb_of_debounced (current_time : Nat) (disp : Bool) (target_page : Option Obj)
    (s : UIState) (h : debounced current_time s = true) :
    app_icon_cb current_time disp target_page s = s := by
  unfold app_icon_cb
  simp [h]

/-- An accepted click records its tick, whatever its target. -/
theorem app_icon_cb_last_click_time (current_time : Nat) (disp : Bool)
    (target_page : Option Obj) (s : UIState) (hacc : debounced current_time s = false) :
    (app_icon_cb current_time disp target_page s).last_click_time = current_time := by
  unfold app_icon_cb
  simp only [hacc, Bool.false_eq_true, if_false]
  cases target_page with
  | none => rfl
  | some target => cases disp <;> rfl

theorem pages_subset_containers (o : Obj) (h : o ∈ pages) : o ∈ containers :=
  List.mem_cons_of_mem _ h

theorem visibleCount_step (s : UIState) (ev : UIEvent) (h : visibleCount s = 1) :
    visibleCount (step s ev) = 1 := by
  cases ev with
  | back_click =>
    refine visibleCount_of_single _ Obj.home_screen (by simp [containers]) ?_
    intro o ho
    simp [step, back_to_home_cb_hidden, ho]
  | icon_click icon current_time disp =>
    cases hd : debounced current_time s with
    | true => simpa [step, app_icon_cb_of_debounced _ _ _ _ hd] using h
    | false =>
      obtain ⟨target, ht, hmem⟩ : ∃ t, icon.user_data = some t ∧ t ∈ containers := by
        cases icon <;> exact ⟨_, rfl, by simp [containers, pages]⟩
      refine visibleCount_of_single _ target hmem ?_
      intro o ho
      simp [step, ht, app_icon_cb_hidden_accepted _ _ _ _ hd, ho]

/-- C1. Page-visibility invariant: after `setupUI` (for either value of `hasRadio`) and any
sequence of icon clicks on the six bound icons (at arbitrary ticks, with or without a
default display, suppressed by the debounce or not) and back clicks, exactly one of the
seven containers has its HIDDEN flag cleared. -/
theorem page_visibility_invariant (hasRadio : Bool) (evs : List UIEvent) :
    visibleCount (run (setupUI hasRadio) evs) = 1 := by
  have hinit : visibleCount (setupUI hasRadio) = 1 := by
    cases hasRadio <;> decide
  unfold run
  generalize setupUI hasRadio = s at hinit
  induction evs generalizing s with
  | nil => exact hinit
  | cons ev rest ih => exact ih _ (visibleCount_step s ev hinit)

/-- C2. Postcondition of an icon click: from every prior state, a click that the debounce
does not suppress and whose target is one of the six registered pages leaves the target
visible and the home screen and the five other pages hidden, so that exactly one of the
seven containers is visible. -/
theorem app_icon_cb_shows_target (s : UIState) (current_time : Nat) (disp : Bool)
    (target : Obj) (hreg : target ∈ pages) (hacc : debounced current_time s = false) :
    (app_icon_cb current_time disp (some target) s).hidden target = false ∧
      (∀ o, o ∈ containers → o ≠ target →
        (app_icon_cb current_time disp (some target) s).hidden o = true) ∧
      visibleCount (app_icon_cb current_time disp (some target) s) = 1 := by
  refine ⟨by simp [app_icon_cb_hidden_accepted _ _ _ _ hacc], ?_, ?_⟩
  · intro o ho hne
    simp [app_icon_cb_hidden_accepted _ _ _ _ hacc, ho, hne]
  · refine visibleCount_of_single _ target (pages_subset_containers _ hreg) ?_
    intro o ho
    simp [app_icon_cb_hidden_accepted _ _ _ _ hacc, ho]

/-- Witness for C2: from the display page, an accepted click on the GPS icon shows the GPS
page and hides the six other containers. -/
theorem app_icon_cb_shows_target_witness :
    (app_icon_cb 5000 true (some Obj.sub_gps_page)
        (app_icon_cb 1000 true (some Obj.sub_display_page) (setupUI true))).hidden
        Obj.sub_gps_page = false ∧
      (∀ o, o ∈ containers → o ≠ Obj.sub_gps_page →
        (app_icon_cb 5000 true (some Obj.sub_gps_page)
          (app_icon_cb 1000 true (some Obj.sub_display_page) (setupUI true))).hidden o
          = true) ∧
      visibleCount (app_icon_cb 5000 true (some Obj.sub_gps_page)
        (app_icon_cb 1000 true (some Obj.sub_display_page) (setupUI true))) = 1 :=
  app_icon_cb_shows_target _ 5000 true Obj.sub_gps_page (by decide) (by decide)

/-- C3, as stated, fails: after an accepted click at tick 1000, a click on the GPS icon at
tick 1200 is suppressed, and a click on the sound icon at tick 1350 (150 ms after the
previous call) is applied, so the state after the second of these two calls differs from
the state after the first. -/
theorem debounce_window_counts_from_accepted_click :
    u32_sub 1350 1200 < 300 ∧
      (app_icon_cb 1200 true (some Obj.sub_gps_page)
        (app_icon_cb 1000 true (some Obj.sub_display_page) (setupUI true))).hidden
        Obj.sub_sound_page = true ∧
      (app_icon_cb 1350 true (some Obj.sub_sound_page)
        (app_icon_cb 1200 true (some Obj.sub_gps_page)
          (app_icon_cb 1000 true (some Obj.sub_display_page) (setupUI true)))).hidden
        Obj.sub_sound_page = false := by
  decide

/-- C3, amended. When a call of `app_icon_cb` is not itself suppressed, a following call whose
tick is less than 300 ms later (difference taken on `uint32_t`) is ignored, whatever the two
targets: the state after the second call is the state the first call produced. -/
theorem debounce_second_click_ignored (s : UIState) (t1 t2 : Nat) (d1 d2 : Bool)
    (target1 target2 : Option Obj) (hacc : debounced t1 s = false)
    (hnear : u32_sub t2 t1 < 300) :
    app_icon_cb t2 d2 target2 (app_icon_cb t1 d1 target1 s) = app_icon_cb t1 d1 target1 s := by
  apply app_icon_cb_of_debounced
  simp [debounced, app_icon_cb_last_click_time _ _ _ _ hacc, hnear]

/-- Witness for the amended C3: clicks at ticks 1000 (radio) and 1299 (sound). -/
theorem debounce_second_click_ignored_witness :
    app_icon_cb 1299 true (some Obj.sub_sound_page)
        (app_icon_cb 1000 true (some Obj.sub_mechanics_page) (setupUI true)) =
      app_icon_cb 1000 true (some Obj.sub_mechanics_page) (setupUI true) :=
  debounce_second_click_ignored (setupUI true) 1000 1299 true true _ _ (by decide) (by decide)

/-- C10, as stated, fails: an accepted click whose target is a non-null object that is not
one of the registered pages hides the home screen and calls the touch isolation. -/
theorem app_icon_cb_unregistered_target_changes_state :
    Obj.other 7 ∉ pages ∧
      (setupUI true).hidden Obj.home_screen = false ∧
      (app_icon_cb 1000 true (some (Obj.other 7)) (setupUI true)).hidden Obj.home_screen
        = true ∧
      (app_icon_cb 1000 true (some (Obj.other 7)) (setupUI true)).calls =
        [Call.isolate_touch_input (some (Obj.other 7)),
         Call.lv_disp_enable_invalidation false,
         Call.lv_disp_enable_invalidation true,
         Call.lv_obj_invalidate_scr_act,
         Call.lv_task_handler] := by
  decide

/-- C10, amended. A click whose target is null changes no HIDDEN flag and issues no touch
isolation or display call; the only thing it may change is the debounce time stamp, which
an unsuppressed click sets to the current tick. -/
theorem app_icon_cb_null_target (s : UIState) (current_time : Nat) (disp : Bool) :
    (app_icon_cb current_time disp none s).hidden = s.hidden ∧
      (app_icon_cb current_time disp none s).calls = s.calls ∧
      (app_icon_cb current_time disp none s).label_radio_msg = s.label_radio_msg ∧
      (app_icon_cb current_time disp none s).last_click_time =
        if debounced current_time s then s.last_click_time else current_time := by
  unfold app_icon_cb
  cases debounced current_time s <;> simp

/-! ### Battery field -/

/-- On `uint16_t` operands the 32-bit computation `abs((int)a - (int)b)` is exact. -/
theorem c_abs_sub_uint16 (a b : Nat) (ha : a < 65536) (hb : b < 65536) :
    c_abs (int32_wrap ((a : Int) - (b : Int))) = |(a : Int) - (b : Int)| := by
  have h1 : int32_wrap ((a : Int) - (b : Int)) = (a : Int) - (b : Int) := by
    unfold int32_wrap
    omega
  rw [h1]
  unfold c_abs int32_wrap
  split
  · rw [abs_of_neg (by assumption)]
    omega
  · rw [abs_of_nonneg (by omega)]
    omega

/-- The text of a `uint16_t` voltage fits the 16-byte buffer, so `snprintf` stores it
whole. -/
theorem snprintf_voltage (v : Nat) (hv : v < 65536) :
    snprintf 16 (Nat.repr v ++ " mV") = Nat.repr v ++ " mV" := by
  have hlen : (Nat.repr v).length ≤ 5 := Nat.repr_length v 5 (by decide) (by omega)
  have h5 : (Nat.repr v).data.length ≤ 5 := hlen
  have hall : (Nat.repr v ++ " mV").data.length = (Nat.repr v).data.length + 3 := by
    rw [String.data_append, List.length_append]
    rfl
  unfold snprintf
  rw [List.take_of_length_le (by omega)]

/-- C4. Battery change gate, no-op side: when the new `uint16_t` voltage is within 10 mV of
the last rendered one, `ui_update_battery_fast` changes neither the rendered text nor
`last_voltage`. -/
theorem ui_update_battery_fast_within_threshold (s : BatteryState) (v : Nat)
    (hv : v < 65536) (hL : s.last_voltage < 65536)
    (hd : |(v : Int) - (s.last_voltage : Int)| ≤ 10) :
    (ui_update_battery_fast v s).voltage_buf = s.voltage_buf ∧
      (ui_update_battery_fast v s).last_voltage = s.last_voltage := by
  unfold ui_update_battery_fast
  rw [c_abs_sub_uint16 v s.last_voltage hv hL, if_neg (not_lt.mpr hd)]
  exact ⟨rfl, rfl⟩

/-- Witness for C4: last rendered 3700 mV, new value 3705 mV. -/
theorem ui_update_battery_fast_within_threshold_witness :
    (ui_update_battery_fast 3705 { last_voltage := 3700, voltage_buf := "3700 mV" }).voltage_buf
        = "3700 mV" ∧
      (ui_update_battery_fast 3705 { last_voltage := 3700, voltage_buf := "3700 mV" }).last_voltage
        = 3700 :=
  ui_update_battery_fast_within_threshold { last_voltage := 3700, voltage_buf := "3700 mV" }
    3705 (by decide) (by decide) (by decide)

/-- C5. Battery change gate, update side: when the new `uint16_t` voltage differs from the
last rendered one by more than 10 mV, `ui_update_battery_fast` renders the decimal
representation of the new voltage followed by " mV" and stores it as `last_voltage`. -/
theorem ui_update_battery_fast_beyond_threshold (s : BatteryState) (v : Nat)
    (hv : v < 65536) (hL : s.last_voltage < 65536)
    (hd : 10 < |(v : Int) - (s.last_voltage : Int)|) :
    (ui_update_battery_fast v s).voltage_buf = Nat.repr v ++ " mV" ∧
      (ui_update_battery_fast v s).last_voltage = v := by
  unfold ui_update_battery_fast
  rw [c_abs_sub_uint16 v s.last_voltage hv hL, if_pos hd]
  exact ⟨snprintf_voltage v hv, rfl⟩

/-- Witness for C5: last rendered 3700 mV, new value 3715 mV gives "3715 mV". -/
theorem ui_update_battery_fast_beyond_threshold_witness :
    (ui_update_battery_fast 3715 { last_voltage := 3700, voltage_buf := "3700 mV" }).voltage_buf
        = "3715 mV" ∧
      (ui_update_battery_fast 3715 { last_voltage := 3700, voltage_buf := "3700 mV" }).last_voltage
        = 3715 :=
  ui_update_battery_fast_beyond_threshold { last_voltage := 3700, voltage_buf := "3700 mV" }
    3715 (by decide) (by decide) (by decide)

/-! ### Memory pool -/

/-- A request that fits below the capacity is served at the cursor, which advances by the
requested size; the general allocator is not consulted. -/
theorem ui_fast_malloc_of_fits (size fallback : Nat) (s : PoolState)
    (hpool : s.g_ui_memory_pool ≠ 0)
    (hvalid : s.g_ui_memory_pool + g_ui_memory_pool_size < UINT32_MOD)
    (hfit : s.g_ui_memory_used + size < g_ui_memory_pool_size) :
    ui_fast_malloc size fallback s =
      (s.g_ui_memory_pool + s.g_ui_memory_used,
       { s with g_ui_memory_used := s.g_ui_memory_used + size }) := by
  unfold g_ui_memory_pool_size UINT32_MOD at *
  have h1 : u32_add s.g_ui_memory_used size = s.g_ui_memory_used + size := by
    unfold u32_add UINT32_MOD
    omega
  have h2 : u32_add s.g_ui_memory_pool s.g_ui_memory_used
      = s.g_ui_memory_pool + s.g_ui_memory_used := by
    unfold u32_add UINT32_MOD
    omega
  unfold ui_fast_malloc g_ui_memory_pool_size
  rw [h1, h2, if_pos ⟨hpool, hfit⟩]

/-- Successive requests whose sizes fit below the capacity: every block is carved out of
the pool between the old and the new cursor, each block ends where the next one starts or
before, and the general allocator is never consulted. -/
theorem ui_fast_malloc_seq_of_fits (reqs : List Request) (s : PoolState)
    (hpool : s.g_ui_memory_pool ≠ 0)
    (hvalid : s.g_ui_memory_pool + g_ui_memory_pool_size < UINT32_MOD)
    (hsum : s.g_ui_memory_used + (reqs.map Request.size).sum < g_ui_memory_pool_size) :
    (ui_fast_malloc_seq reqs s).1.length = reqs.length ∧
      (ui_fast_malloc_seq reqs s).2.g_ui_memory_used
        = s.g_ui_memory_used + (reqs.map Request.size).sum ∧
      (ui_fast_malloc_seq reqs s).2.g_ui_memory_pool = s.g_ui_memory_pool ∧
      (ui_fast_malloc_seq reqs s).2.heap_calls = s.heap_calls ∧
      (∀ b, b ∈ List.zip (ui_fast_malloc_seq reqs s).1 (reqs.map Request.size) →
        s.g_ui_memory_pool + s.g_ui_memory_used ≤ b.1 ∧
        b.1 + b.2 ≤ s.g_ui_memory_pool + s.g_ui_memory_used + (reqs.map Request.size).sum) ∧
      List.Pairwise (fun a b : Nat × Nat => a.1 + a.2 ≤ b.1)
        (List.zip (ui_fast_malloc_seq reqs s).1 (reqs.map Request.size)) := by
  induction reqs generalizing s with
  | nil => simp [ui_fast_malloc_seq]
  | cons r rest ih =>
    simp only [List.map_cons, List.sum_cons] at hsum
    have hhead := ui_fast_malloc_of_fits r.size r.fallback s hpool hvalid (by omega)
    have htail := ih (ui_fast_malloc r.size r.fallback s).2
      (by rw [hhead]; exact hpool) (by rw [hhead]; exact hvalid)
      (by rw [hhead]; simp only []; omega)
    rw [hhead] at htail
    simp only [] at htail
    obtain ⟨hlen, hused, hbase, hcalls, hin, hpw⟩ := htail
    simp only [ui_fast_malloc_seq, hhead, List.map_cons, List.sum_cons, List.length_cons,
      List.zip_cons_cons, List.pairwise_cons, List.mem_cons]
    refine ⟨by omega, by omega, hbase, hcalls, ?_, ?_, hpw⟩
    · rintro b (rfl | hb)
      · simp only []
        omega
      · have := hin b hb
        omega
    · intro b hb
      have := hin b hb
      omega

/-- C6, as stated, fails: a request of size zero does not advance the cursor, so the next
request receives the same address and the returned addresses are not strictly increasing,
although the sizes sum to 64, far below the capacity. -/
theorem ui_fast_malloc_zero_size_repeats_address :
    (ui_memory_pool_init 1065353216 0 pool_startup).g_ui_memory_used + (0 + 64)
        < g_ui_memory_pool_size ∧
      (ui_fast_malloc_seq [⟨0, 0⟩, ⟨64, 0⟩]
        (ui_memory_pool_init 1065353216 0 pool_startup)).1 = [1065353216, 1065353216] ∧
      ¬ List.Pairwise (fun a b : Nat => a < b)
        (ui_fast_malloc_seq [⟨0, 0⟩, ⟨64, 0⟩]
          (ui_memory_pool_init 1065353216 0 pool_startup)).1 := by
  decide

/-- C6, amended. For an initialised pool (a non-null block that lies inside the address
space) and requests whose sizes, added to the cursor, stay below the capacity, the successive
`ui_fast_malloc` calls return one address per request; every returned block lies inside the
pool; and for any two of them the earlier one has the smaller or equal address, a strictly
smaller one when its size is not zero, and the two byte ranges do not overlap. -/
theorem ui_fast_malloc_seq_ordered (reqs : List Request) (s : PoolState)
    (hpool : s.g_ui_memory_pool ≠ 0)
    (hvalid : s.g_ui_memory_pool + g_ui_memory_pool_size < UINT32_MOD)
    (hsum : s.g_ui_memory_used + (reqs.map Request.size).sum < g_ui_memory_pool_size) :
    (ui_fast_malloc_seq reqs s).1.length = reqs.length ∧
      (∀ b, b ∈ List.zip (ui_fast_malloc_seq reqs s).1 (reqs.map Request.size) →
        s.g_ui_memory_pool ≤ b.1 ∧ b.1 < s.g_ui_memory_pool + g_ui_memory_pool_size ∧
        b.1 + b.2 ≤ s.g_ui_memory_pool + g_ui_memory_pool_size) ∧
      List.Pairwise
        (fun a b : Nat × Nat => a.1 ≤ b.1 ∧ (0 < a.2 → a.1 < b.1) ∧ Disjoint_blocks a b)
        (List.zip (ui_fast_malloc_seq reqs s).1 (reqs.map Request.size)) := by
  obtain ⟨hlen, -, -, -, hin, hpw⟩ := ui_fast_malloc_seq_of_fits reqs s hpool hvalid hsum
  refine ⟨hlen, ?_, ?_⟩
  · intro b hb
    have := hin b hb
    omega
  · refine hpw.imp ?_
    intro a b hab
    exact ⟨by omega, fun _ => by omega, Or.inl hab⟩

/-- Witness for the amended C6: requests of 64, 128 and 256 bytes on a freshly initialised
pool. -/
theorem ui_fast_malloc_seq_ordered_witness :
    ((ui_memory_pool_init 1065353216 0 pool_startup).g_ui_memory_pool ≠ 0 ∧
      (ui_memory_pool_init 1065353216 0 pool_startup).g_ui_memory_pool + g_ui_memory_pool_size
        < UINT32_MOD ∧
      (ui_memory_pool_init 1065353216 0 pool_startup).g_ui_memory_used
        + (([⟨64, 0⟩, ⟨128, 0⟩, ⟨256, 0⟩] : List Request).map Request.size).sum
        < g_ui_memory_pool_size) ∧
      (ui_fast_malloc_seq [⟨64, 0⟩, ⟨128, 0⟩, ⟨256, 0⟩]
        (ui_memory_pool_init 1065353216 0 pool_startup)).1
        = [1065353216, 1065353280, 1065353408] ∧
      List.Pairwise
        (fun a b : Nat × Nat => a.1 ≤ b.1 ∧ (0 < a.2 → a.1 < b.1) ∧ Disjoint_blocks a b)
        (List.zip
          (ui_fast_malloc_seq [⟨64, 0⟩, ⟨128, 0⟩, ⟨256, 0⟩]
            (ui_memory_pool_init 1065353216 0 pool_startup)).1
          (([⟨64, 0⟩, ⟨128, 0⟩, ⟨256, 0⟩] : List Request).map Request.size)) :=
  ⟨by decide, by decide,
    (ui_fast_malloc_seq_ordered [⟨64, 0⟩, ⟨128, 0⟩, ⟨256, 0⟩]
      (ui_memory_pool_init 1065353216 0 pool_startup) (by decide) (by decide)
      (by decide)).2.2⟩

/-- A request that the capacity test rejects is passed to the general allocator: the result
is the allocator's pointer and the cursor is untouched. -/
theorem ui_fast_malloc_of_rejected (size fallback : Nat) (s : PoolState)
    (h : s.g_ui_memory_pool = 0 ∨ g_ui_memory_pool_size ≤ u32_add s.g_ui_memory_used size) :
    ui_fast_malloc size fallback s = (fallback, heap_emit (HeapCall.malloc size) s) := by
  unfold ui_fast_malloc
  rw [if_neg]
  rintro ⟨h1, h2⟩
  rcases h with h | h
  · exact h1 h
  · omega

/-- When the sum of cursor and size does not wrap around, a request that exceeds the
remaining capacity falls back to the general allocator and leaves the cursor unchanged. -/
theorem ui_fast_malloc_exhausted_of_no_wrap (size fallback : Nat) (s : PoolState)
    (hnowrap : s.g_ui_memory_used + size < UINT32_MOD)
    (hex : g_ui_memory_pool_size ≤ s.g_ui_memory_used + size) :
    (ui_fast_malloc size fallback s).1 = fallback ∧
      (ui_fast_malloc size fallback s).2.g_ui_memory_used = s.g_ui_memory_used ∧
      (ui_fast_malloc size fallback s).2.heap_calls = s.heap_calls ++ [HeapCall.malloc size] := by
  have h : g_ui_memory_pool_size ≤ u32_add s.g_ui_memory_used size := by
    unfold u32_add
    rw [Nat.mod_eq_of_lt hnowrap]
    exact hex
  rw [ui_fast_malloc_of_rejected size fallback s (Or.inr h)]
  exact ⟨rfl, rfl, rfl⟩

/-- When the sum of cursor and size does not wrap around, `ui_fast_malloc` never moves the
cursor backwards. -/
theorem ui_fast_malloc_cursor_le_of_no_wrap (size fallback : Nat) (s : PoolState)
    (hnowrap : s.g_ui_memory_used + size < UINT32_MOD) :
    s.g_ui_memory_used ≤ (ui_fast_malloc size fallback s).2.g_ui_memory_used := by
  unfold ui_fast_malloc
  split
  · simp only [u32_add, Nat.mod_eq_of_lt hnowrap]
    omega
  · exact Nat.le_refl _

/-- C7, evaluated at the failing input: with the cursor at 100, a request of 4294967246
bytes exceeds the remaining 32668 bytes, yet the wrapped sum is 50, so the request is served
from the pool at offset 100, the cursor moves to 50 and `malloc` is not called. -/
theorem ui_fast_malloc_oversized_served_from_pool :
    g_ui_memory_pool_size - 100 < 4294967246 ∧
      ui_fast_malloc 4294967246 536870912
          { g_ui_memory_pool := 1065353216, g_ui_memory_used := 100, heap_calls := [] } =
        (1065353316,
          { g_ui_memory_pool := 1065353216, g_ui_memory_used := 50, heap_calls := [] }) := by
  decide

/-- C8, evaluated at the failing input: after `ui_memory_pool_init` and a request of 100
bytes the cursor is 100; a further request of 4294967246 bytes makes the sum wrap around
and moves the cursor back to 50. -/
theorem pool_cursor_decreases_on_wrap :
    (pool_run pool_startup
        [PoolOp.init 1065353216 0, PoolOp.alloc 100 0]).g_ui_memory_used = 100 ∧
      (pool_run pool_startup
        [PoolOp.init 1065353216 0, PoolOp.alloc 100 0,
         PoolOp.alloc 4294967246 0]).g_ui_memory_used = 50 := by
  decide

/-- The part of the `ui_fast_free` contract that holds: the general deallocator is called
exactly when the pointer lies outside the address range of the pool; for a pointer inside
the pool nothing changes; the cursor and the pool base never change; and, for a block of
the pool that lies below the cursor, the single allocation that directly follows its release
returns either the general allocator's pointer or a pool address at or beyond the end of
that block. Later allocations are not covered. -/
theorem ui_fast_free_spec (s : PoolState) (ptr n size fallback : Nat)
    (hvalid : s.g_ui_memory_pool + g_ui_memory_pool_size < UINT32_MOD)
    (hcur : s.g_ui_memory_used < g_ui_memory_pool_size) :
    ((ui_fast_free ptr s).heap_calls = s.heap_calls ++ [HeapCall.free ptr] ↔
        ¬ (s.g_ui_memory_pool ≤ ptr ∧ ptr < s.g_ui_memory_pool + g_ui_memory_pool_size)) ∧
      ((s.g_ui_memory_pool ≤ ptr ∧ ptr < s.g_ui_memory_pool + g_ui_memory_pool_size) →
        ui_fast_free ptr s = s) ∧
      (ui_fast_free ptr s).g_ui_memory_used = s.g_ui_memory_used ∧
      (ui_fast_free ptr s).g_ui_memory_pool = s.g_ui_memory_pool ∧
      ((s.g_ui_memory_pool ≤ ptr ∧ ptr + n ≤ s.g_ui_memory_pool + s.g_ui_memory_used) →
        (ui_fast_malloc size fallback (ui_fast_free ptr s)).1 = fallback ∨
        ptr + n ≤ (ui_fast_malloc size fallback (ui_fast_free ptr s)).1) := by
  have hend : u32_add s.g_ui_memory_pool g_ui_memory_pool_size
      = s.g_ui_memory_pool + g_ui_memory_pool_size := by
    unfold u32_add
    exact Nat.mod_eq_of_lt hvalid
  have hat : u32_add s.g_ui_memory_pool s.g_ui_memory_used
      = s.g_ui_memory_pool + s.g_ui_memory_used := by
    unfold u32_add
    exact Nat.mod_eq_of_lt (by omega)
  by_cases hin : s.g_ui_memory_pool ≤ ptr ∧ ptr < s.g_ui_memory_pool + g_ui_memory_pool_size
  · have hfree : ui_fast_free ptr s = s := by
      unfold ui_fast_free
      rw [hend, if_neg (by omega)]
    rw [hfree]
    refine ⟨by simp [hin], fun _ => rfl, rfl, rfl, ?_⟩
    intro hblock
    unfold ui_fast_malloc
    split
    · right
      simp only [hat]
      omega
    · left
      rfl
  · have hfree : ui_fast_free ptr s = heap_emit (HeapCall.free ptr) s := by
      unfold ui_fast_free
      rw [hend, if_pos (by omega)]
    rw [hfree]
    refine ⟨by simp [hin, heap_emit], fun h => absurd h hin, rfl, rfl, ?_⟩
    intro hblock
    omega

/-- An instance of `ui_fast_free_spec`: on a pool whose first 64 bytes were handed out at
address 1065353216, releasing that pointer calls nothing and changes nothing, and the next
request of 64 bytes is served at 1065353280, right after the released block. -/
theorem ui_fast_free_spec_witness :
    ui_fast_free 1065353216
        { g_ui_memory_pool := 1065353216, g_ui_memory_used := 64, heap_calls := [] } =
        { g_ui_memory_pool := 1065353216, g_ui_memory_used := 64, heap_calls := [] } ∧
      (ui_fast_malloc 64 0 (ui_fast_free 1065353216
        { g_ui_memory_pool := 1065353216, g_ui_memory_used := 64, heap_calls := [] })).1
        = 1065353280 ∧
      1065353216 + 64 ≤ (ui_fast_malloc 64 0 (ui_fast_free 1065353216
        { g_ui_memory_pool := 1065353216, g_ui_memory_used := 64, heap_calls := [] })).1 :=
  ⟨(ui_fast_free_spec
      { g_ui_memory_pool := 1065353216, g_ui_memory_used := 64, heap_calls := [] }
      1065353216 64 64 0 (by decide) (by decide)).2.1 (by decide),
    by decide,
    ((ui_fast_free_spec
      { g_ui_memory_pool := 1065353216, g_ui_memory_used := 64, heap_calls := [] }
      1065353216 64 64 0 (by decide) (by decide)).2.2.2.2 (by decide)).resolve_left
      (by decide)⟩

/-- C9, evaluated at the failing input: the first 100 bytes of a fresh pool are handed out
at 1065353216 and released, which changes nothing; a request of 4294967246 bytes then makes
the sum of cursor and size wrap around to 50 and is served from the pool at offset 100; the
next request of 10 bytes is served at offset 50, inside the released block, and the general
allocator is never consulted. -/
theorem ui_fast_free_block_reissued :
    (ui_fast_malloc 100 0 (ui_memory_pool_init 1065353216 0 pool_startup)).1 = 1065353216 ∧
      ui_fast_free 1065353216
          (ui_fast_malloc 100 0 (ui_memory_pool_init 1065353216 0 pool_startup)).2
        = (ui_fast_malloc 100 0 (ui_memory_pool_init 1065353216 0 pool_startup)).2 ∧
      ui_fast_malloc_seq [⟨4294967246, 0⟩, ⟨10, 0⟩]
          (ui_fast_free 1065353216
            (ui_fast_malloc 100 0 (ui_memory_pool_init 1065353216 0 pool_startup)).2)
        = ([1065353316, 1065353266],
           { g_ui_memory_pool := 1065353216, g_ui_memory_used := 60,
             heap_calls := [HeapCall.heap_caps_malloc 32768] }) ∧
      (1065353216 ≤ 1065353266 ∧ 1065353266 + 10 ≤ 1065353216 + 100) := by
  decide

/-! ### Home navigation and initial state -/

/-- C11. Postcondition of a back click: from every prior state (the callback reads no tick
and has no debounce, so also right after an icon click) `back_to_home_cb` leaves the home
screen visible and the six pages hidden, hence exactly one container visible. -/
theorem back_to_home_cb_shows_home (s : UIState) :
    (back_to_home_cb s).hidden Obj.home_screen = false ∧
      (∀ p, p ∈ pages → (back_to_home_cb s).hidden p = true) ∧
      visibleCount (back_to_home_cb s) = 1 ∧
      (back_to_home_cb s).last_click_time = s.last_click_time := by
  refine ⟨by simp [back_to_home_cb_hidden], ?_, ?_, rfl⟩
  · intro p hp
    have hne : p ≠ Obj.home_screen := by
      rintro rfl
      simp [pages] at hp
    simp [back_to_home_cb_hidden, hne, pages_subset_containers p hp]
  · refine visibleCount_of_single _ Obj.home_screen (by simp [containers]) ?_
    intro o ho
    simp [back_to_home_cb_hidden, ho]

/-- C12. Initial state: when `setupUI` returns, for either value of `hasRadio`, the home
screen is visible and each of the six pages has its HIDDEN flag set. -/
theorem setupUI_initial_state (hasRadio : Bool) :
    (setupUI hasRadio).hidden Obj.home_screen = false ∧
      (setupUI hasRadio).hidden Obj.sub_mechanics_page = true ∧
      (setupUI hasRadio).hidden Obj.sub_sound_page = true ∧
      (setupUI hasRadio).hidden Obj.sub_display_page = true ∧
      (setupUI hasRadio).hidden Obj.sub_gps_page = true ∧
      (setupUI hasRadio).hidden Obj.sub_kb_page = true ∧
      (setupUI hasRadio).hidden Obj.sub_setting_page = true := by
  cases hasRadio <;> decide

/-! ### Radio message and noise labels -/

/-- C19, evaluated at the failing input: after `setupUI` with `hasRadio` false the handle
`label_radio_msg` is null, and `setLoRaMessage` passes it to `lv_label_set_text`. -/
theorem setLoRaMessage_without_radio_uses_null_handle :
    (setupUI false).label_radio_msg = none ∧
      setLoRaMessage "hello" (setupUI false) = none ∧
      ∀ text, setLoRaMessage text (setupUI false) = none :=
  ⟨rfl, rfl, fun _ => rfl⟩

/-- With a radio the handle is set and `setLoRaMessage` writes the text to it. -/
theorem setLoRaMessage_with_radio (text : String) :
    ∃ s, setLoRaMessage text (setupUI true) = some s ∧
      s.calls = [Call.lv_label_set_text (Obj.other 0) text] :=
  ⟨_, rfl, rfl⟩

/-- C16, as stated, fails: a second `updateNoiseLabel(5)` right after the first writes the
label again, although 5 is the count last rendered. -/
theorem updateNoiseLabel_rewrites_equal_count :
    (updateNoiseLabel 5 sound_after_setupUI).vad_text = "5" ∧
      (updateNoiseLabel 5 sound_after_setupUI).vad_writes = ["5"] ∧
      (updateNoiseLabel 5 (updateNoiseLabel 5 sound_after_setupUI)).vad_writes
        = ["5", "5"] := by
  decide

/-- C16, amended. `updateNoiseLabel` keeps no last-rendered count: whenever the handle
`sound_vad_label` is set, every call writes the decimal text of the count to the label,
whether or not the count differs from the one rendered before; when the handle is null the
call does nothing. -/
theorem updateNoiseLabel_writes_every_call (cnt : Nat) (s : SoundState) :
    updateNoiseLabel cnt s =
      if s.sound_vad_label = none then s
      else { s with vad_text := Nat.repr cnt, vad_writes := s.vad_writes ++ [Nat.repr cnt] } := by
  unfold updateNoiseLabel
  cases h : s.sound_vad_label <;> simp

/-! ### Wi-Fi field -/

/-- When the difference of two `int32_t` values does not leave the range of `int`, the
32-bit computation `abs(a - b)` is exact. -/
theorem c_abs_sub_of_no_overflow (a b : Int) (h : |a - b| < 2147483648) :
    c_abs (int32_wrap (a - b)) = |a - b| := by
  rw [abs_lt] at h
  have h1 : int32_wrap (a - b) = a - b := by
    unfold int32_wrap
    omega
  rw [h1]
  unfold c_abs int32_wrap
  split
  · rw [abs_of_neg (by assumption)]
    omega
  · rw [abs_of_nonneg (by omega)]
    omega

/-- As long as the difference does not overflow, the Wi-Fi gate with an unchanged
connection flag is exact: the statics are rewritten when the difference exceeds 2 and are
left alone otherwise. -/
theorem ui_update_wifi_fast_of_no_overflow (rssi : Int) (s : WifiState)
    (h : |rssi - s.last_rssi| < 2147483648) :
    ui_update_wifi_fast rssi s.last_connected s =
      if |rssi - s.last_rssi| > 2 then
        { rssi_buf :=
            if s.last_connected then snprintf 16 (Int.repr rssi ++ " dBm")
            else NOT_AVAILABLE_TEXT
          last_rssi := rssi
          last_connected := s.last_connected }
      else s := by
  unfold ui_update_wifi_fast
  rw [c_abs_sub_of_no_overflow rssi s.last_rssi h]
  simp

/-- C14, evaluated at the failing inputs. From the initial statics (`last_rssi` 999, not
connected) the call with rssi -2147482649 has difference -2147483648, whose `abs` wraps to a
negative number, so nothing is rewritten. With `last_rssi` -2147483648 stored by a first
call, the call with rssi 2147483647 has difference 4294967295, which wraps to -1, so again
nothing is rewritten. -/
theorem ui_update_wifi_fast_overflow_skips_update :
    (2 < |(-2147482649 : Int) - wifi_startup.last_rssi| ∧
      ui_update_wifi_fast (-2147482649) false wifi_startup = wifi_startup) ∧
    ((ui_update_wifi_fast (-2147483648) true wifi_startup).last_rssi = -2147483648 ∧
      2 < |(2147483647 : Int) - (-2147483648)| ∧
      ui_update_wifi_fast 2147483647 true
          (ui_update_wifi_fast (-2147483648) true wifi_startup) =
        ui_update_wifi_fast (-2147483648) true wifi_startup) := by
  decide

/-! ### Pool capacity -/

/-- C18, evaluated: the pool functions use `g_ui_memory_pool_size`, which is 32768, not the
macro `UI_MEMORY_POOL_SIZE`, which is 8192. `ui_memory_pool_init` asks the heap for 32768
bytes, and on the fresh pool a request of 8192 bytes, and then one of 16384 more, are served
from the pool. -/
theorem pool_capacity_is_not_the_header_macro :
    UI_MEMORY_POOL_SIZE = 8192 ∧ g_ui_memory_pool_size = 32768 ∧
      (ui_memory_pool_init 1065353216 0 pool_startup).heap_calls
        = [HeapCall.heap_caps_malloc 32768] ∧
      (ui_fast_malloc_seq [⟨8192, 0⟩, ⟨16384, 0⟩]
        (ui_memory_pool_init 1065353216 0 pool_startup)).1 = [1065353216, 1065361408] ∧
      (ui_fast_malloc_seq [⟨8192, 0⟩, ⟨16384, 0⟩]
        (ui_memory_pool_init 1065353216 0 pool_startup)).2.g_ui_memory_used = 24576 := by
  decide

/-! ### Performance initialisation -/

/-- The effect of one `ui_performance_init` call on the number of `lv_style_init` calls made
on one of the three cached styles. -/
theorem style_init_count_ui_performance_init (psram ram : Nat) (disp : Bool) (s : PerfState)
    (st : Style)
    (hst : st = Style.section_style ∨ st = Style.button_style ∨ st = Style.label_style) :
    style_init_count st (ui_performance_init psram ram disp s) =
      style_init_count st s + (if s.initialized then 0 else 1) := by
  unfold ui_performance_init ui_set_fast_refresh_rate style_init_count perf_emit
  rcases hst with rfl | rfl | rfl <;> cases hi : s.initialized <;> cases disp <;>
    simp [hi, List.count_append, List.count_cons]

theorem ui_performance_init_initialized (psram ram : Nat) (disp : Bool) (s : PerfState) :
    (ui_performance_init psram ram disp s).initialized = true := by
  unfold ui_performance_init ui_set_fast_refresh_rate perf_emit
  cases hi : s.initialized <;> cases disp <;> simp [hi]

/-- Once the flag is set, further calls make no `lv_style_init` call. -/
theorem style_init_count_perf_run_of_initialized (calls : List InitArgs) (s : PerfState)
    (st : Style)
    (hst : st = Style.section_style ∨ st = Style.button_style ∨ st = Style.label_style)
    (hi : s.initialized = true) :
    (perf_run s calls).initialized = true ∧
      style_init_count st (perf_run s calls) = style_init_count st s := by
  induction calls generalizing s with
  | nil => exact ⟨hi, rfl⟩
  | cons c rest ih =>
    have h1 := style_init_count_ui_performance_init c.psram c.ram c.disp s st hst
    have h2 := ih (ui_performance_init c.psram c.ram c.disp s)
      (ui_performance_init_initialized _ _ _ _)
    simp only [hi, if_true, Nat.add_zero] at h1
    simp only [perf_run, List.foldl_cons] at h2 ⊢
    exact ⟨h2.1, h2.2.trans h1⟩

/-- C20. Style cache init-once: from every prior state `ui_performance_init` returns with
`g_style_cache.initialized` true; a call made when the flag is already true makes no
`lv_style_init` call; and over any sequence of one or more calls each of the section, button
and label styles is initialised exactly once if the flag was clear before the first call
(and not at all if it was set), so exactly once from program start. -/
theorem ui_performance_init_once (s : PerfState) (first : InitArgs) (rest : List InitArgs) :
    (ui_performance_init first.psram first.ram first.disp s).initialized = true ∧
      (perf_run s (first :: rest)).initialized = true ∧
      (s.initialized = true →
        (ui_performance_init first.psram first.ram first.disp s).perf_calls =
          s.perf_calls ++ (if first.disp then [PerfCall.lv_disp_set_default] else [])) ∧
      style_init_count Style.section_style (perf_run s (first :: rest)) =
        style_init_count Style.section_style s + (if s.initialized then 0 else 1) ∧
      style_init_count Style.button_style (perf_run s (first :: rest)) =
        style_init_count Style.button_style s + (if s.initialized then 0 else 1) ∧
      style_init_count Style.label_style (perf_run s (first :: rest)) =
        style_init_count Style.label_style s + (if s.initialized then 0 else 1) ∧
      style_init_count Style.section_style (perf_run perf_startup (first :: rest)) = 1 ∧
      style_init_count Style.button_style (perf_run perf_startup (first :: rest)) = 1 ∧
      style_init_count Style.label_style (perf_run perf_startup (first :: rest)) = 1 := by
  have hinit := ui_performance_init_initialized first.psram first.ram first.disp
  have key : ∀ (t : PerfState) (st : Style),
      st = Style.section_style ∨ st = Style.button_style ∨ st = Style.label_style →
      (perf_run t (first :: rest)).initialized = true ∧
        style_init_count st (perf_run t (first :: rest)) =
          style_init_count st t + (if t.initialized then 0 else 1) := by
    intro t st hst
    have h1 := style_init_count_ui_performance_init first.psram first.ram first.disp t st hst
    have h2 := style_init_count_perf_run_of_initialized rest
      (ui_performance_init first.psram first.ram first.disp t) st hst (hinit t)
    simp only [perf_run, List.foldl_cons] at h2 ⊢
    exact ⟨h2.1, h2.2.trans h1⟩
  refine ⟨hinit s, (key s Style.section_style (Or.inl rfl)).1, ?_,
    (key s _ (Or.inl rfl)).2, (key s _ (Or.inr (Or.inl rfl))).2,
    (key s _ (Or.inr (Or.inr rfl))).2, ?_, ?_, ?_⟩
  · intro hi
    unfold ui_performance_init ui_set_fast_refresh_rate perf_emit
    cases hd : first.disp <;> simp [hi]
  · exact (key perf_startup _ (Or.inl rfl)).2
  · exact (key perf_startup _ (Or.inr (Or.inl rfl))).2
  · exact (key perf_startup _ (Or.inr (Or.inr rfl))).2

/-! ### Double-precision numbers -/

/-- The literal `0.000001` as a `double`. -/
theorem to_double_0_000001 :
    to_double (1 / 1000000) = Double.finite false (4722366482869645 / 2 ^ 72) := by
  decide!

/-- The literal `0.01` as a `double`. -/
theorem to_double_0_01 :
    to_double (1 / 100) = Double.finite false (5764607523034235 / 2 ^ 59) := by
  decide!

/-- The function `pow2` is the integer power of two. -/
theorem pow2_eq_zpow (e : Int) : pow2 e = (2 : ℚ) ^ e := by
  unfold pow2
  split
  · rename_i h
    conv_rhs => rw [← Int.toNat_of_nonneg h]
    rw [zpow_natCast]
  · rename_i h
    have h' : 0 ≤ -e := by omega
    have : e = -((-e).toNat : Int) := by rw [Int.toNat_of_nonneg h']; ring
    conv_rhs => rw [this]
    rw [zpow_neg, zpow_natCast, one_div]

/-- With enough fuel the digit count `k` of `n` satisfies `n < 2 ^ k ≤ 2 * n`. -/
theorem bit_length_fuel_spec (fuel n : Nat) (h : n ≤ fuel) :
    n < 2 ^ bit_length_fuel fuel n ∧ (0 < n → 2 ^ bit_length_fuel fuel n ≤ 2 * n) := by
  induction fuel generalizing n with
  | zero =>
    have : n = 0 := by omega
    subst this
    simp [bit_length_fuel]
  | succ k ih =>
    unfold bit_length_fuel
    by_cases hn : n = 0
    · subst hn
      simp
    · rw [if_neg hn]
      have hk : n / 2 ≤ k := by omega
      obtain ⟨h1, h2⟩ := ih (n / 2) hk
      rw [pow_succ]
      constructor
      · omega
      · intro _
        by_cases h0 : n / 2 = 0
        · have : n = 1 := by omega
          subst this
          simp [bit_length_fuel] at *
          cases k <;> simp [bit_length_fuel]
        · have := h2 (by omega)
          omega

/-- The digit count `k` of `n` satisfies `n < 2 ^ k`, and `2 ^ k ≤ 2 * n` for `n > 0`. -/
theorem bit_length_spec (n : Nat) :
    n < 2 ^ bit_length n ∧ (0 < n → 2 ^ bit_length n ≤ 2 * n) :=
  bit_length_fuel_spec n n (Nat.le_refl n)


/-- A non-negative rational is the quotient of its numerator and denominator. -/
theorem rat_eq_natAbs_div (q : ℚ) (hq : 0 ≤ q) :
    q = (q.num.natAbs : ℚ) / (q.den : ℚ) := by
  have hnat : (q.num.natAbs : ℤ) = q.num := Int.natAbs_of_nonneg (Rat.num_nonneg.mpr hq)
  have h1 : ((q.num.natAbs : ℤ) : ℚ) = (q.num : ℚ) := congrArg _ hnat
  rw [← Int.cast_natCast, h1]
  exact (Rat.num_div_den q).symm

/-- The binary exponent brackets a positive value between two powers of two. -/
theorem ilog2_spec (q : ℚ) (hq : 0 < q) :
    (2 : ℚ) ^ ilog2 q ≤ q ∧ q < (2 : ℚ) ^ (ilog2 q + 1) := by
  have hnum : 0 < q.num := Rat.num_pos.mpr hq
  have hden : 0 < q.den := q.den_pos
  have hnat : (q.num.natAbs : ℤ) = q.num := Int.natAbs_of_nonneg hnum.le
  have hnpos : 0 < q.num.natAbs := by omega
  obtain ⟨ha1, ha2⟩ := bit_length_spec q.num.natAbs
  obtain ⟨hb1, hb2⟩ := bit_length_spec q.den
  have ha2 := ha2 hnpos
  have hb2 := hb2 hden
  have hqeq : q = (q.num.natAbs : ℚ) / (q.den : ℚ) := rat_eq_natAbs_div q (le_of_lt hq)
  set N := q.num.natAbs with hN
  set D := q.den with hD
  set a := bit_length N with ha
  set b := bit_length D with hb
  have hDq : (0 : ℚ) < D := by exact_mod_cast hden
  have hNq : (0 : ℚ) < N := by exact_mod_cast hnpos
  have h2a : (N : ℚ) < 2 ^ a := by exact_mod_cast ha1
  have h2a' : (2 : ℚ) ^ a ≤ 2 * N := by exact_mod_cast ha2
  have h2b : (D : ℚ) < 2 ^ b := by exact_mod_cast hb1
  have h2b' : (2 : ℚ) ^ b ≤ 2 * D := by exact_mod_cast hb2
  have hz : ∀ e : ℤ, (2 : ℚ) ^ e = 2 ^ (e - 1) * 2 := by
    intro e
    rw [← zpow_add_one₀ (by norm_num : (2 : ℚ) ≠ 0)]
    congr 1
    ring
  have hpa : (2 : ℚ) ^ ((a : ℤ) - (b : ℤ)) = 2 ^ a / 2 ^ b := by
    rw [zpow_sub₀ (by norm_num : (2 : ℚ) ≠ 0), zpow_natCast, zpow_natCast]
  have hbpos : (0 : ℚ) < 2 ^ b := by positivity
  -- upper bound: q < 2 ^ (a - b + 1)
  have hup : q < (2 : ℚ) ^ ((a : ℤ) - (b : ℤ) + 1) := by
    rw [zpow_add_one₀ (by norm_num : (2 : ℚ) ≠ 0), hpa, hqeq, div_mul_eq_mul_div,
      div_lt_div_iff₀ hDq hbpos]
    nlinarith
  -- lower bound: 2 ^ (a - b - 1) ≤ q
  have hlow : (2 : ℚ) ^ ((a : ℤ) - (b : ℤ) - 1) ≤ q := by
    have h1 : (2 : ℚ) ^ ((a : ℤ) - (b : ℤ) - 1) * 2 = 2 ^ a / 2 ^ b := by
      rw [← hz, hpa]
    have h2 : (2 : ℚ) ^ ((a : ℤ) - (b : ℤ) - 1) = 2 ^ a / 2 ^ b / 2 := by
      rw [← h1]
      ring
    rw [h2, hqeq, div_div, div_le_div_iff₀ (by positivity) hDq]
    nlinarith
  unfold ilog2
  simp only [← hN, ← hD, ← ha, ← hb, pow2_eq_zpow]
  split
  · rename_i h
    exact ⟨h, hup⟩
  · rename_i h
    refine ⟨hlow, ?_⟩
    rw [sub_add_cancel]
    exact lt_of_not_le h

/-- Rounding to the nearest natural number moves a value by at most one half. -/
theorem round_half_even_near (q : ℚ) (hq : 0 ≤ q) :
    (round_half_even q : ℚ) ≤ q + 1 / 2 ∧ q - 1 / 2 ≤ (round_half_even q : ℚ) := by
  have hnum : 0 ≤ q.num := Rat.num_nonneg.mpr hq
  have hden : 0 < q.den := q.den_pos
  have hnat : (q.num.natAbs : ℤ) = q.num := Int.natAbs_of_nonneg hnum
  have hqeq : q = (q.num.natAbs : ℚ) / (q.den : ℚ) := rat_eq_natAbs_div q hq
  unfold round_half_even
  set N := q.num.natAbs with hN
  set D := q.den with hD
  have hdiv : D * (N / D) + N % D = N := Nat.div_add_mod N D
  have hmod : N % D < D := Nat.mod_lt N hden
  have hDq : (0 : ℚ) < D := by exact_mod_cast hden
  have hdivq : (D : ℚ) * ((N / D : ℕ) : ℚ) + ((N % D : ℕ) : ℚ) = N := by
    exact_mod_cast hdiv
  have hq' : q = ((N / D : ℕ) : ℚ) + ((N % D : ℕ) : ℚ) / D := by
    rw [hqeq, ← hdivq]
    field_simp
    ring
  have hr0 : (0 : ℚ) ≤ ((N % D : ℕ) : ℚ) / D := by positivity
  have hr1 : ((N % D : ℕ) : ℚ) / D < 1 := by
    rw [div_lt_one hDq]
    exact_mod_cast hmod
  simp only []
  split
  · rename_i h
    have : ((N % D : ℕ) : ℚ) / D < 1 / 2 := by
      rw [div_lt_div_iff₀ hDq (by norm_num)]
      have : (2 : ℚ) * ((N % D : ℕ) : ℚ) < D := by exact_mod_cast h
      linarith
    constructor <;> linarith
  · rename_i h
    have hge : (1 : ℚ) / 2 ≤ ((N % D : ℕ) : ℚ) / D := by
      rw [div_le_div_iff₀ (by norm_num) hDq]
      have : (D : ℚ) ≤ 2 * ((N % D : ℕ) : ℚ) := by exact_mod_cast (Nat.le_of_not_lt h)
      linarith
    split
    · push_cast
      constructor <;> linarith
    · rename_i h2
      have hle : ((N % D : ℕ) : ℚ) / D ≤ 1 / 2 := by
        rw [div_le_div_iff₀ hDq (by norm_num)]
        have : 2 * ((N % D : ℕ) : ℚ) ≤ (D : ℚ) := by exact_mod_cast (Nat.le_of_not_lt h2)
        linarith
      split
      · constructor <;> linarith
      · push_cast
        constructor <;> linarith


/-- Splitting `k` binary places off a power of two. -/
theorem zpow_two_split (E : ℤ) (k : ℕ) :
    (2 : ℚ) ^ (E - 52 + k) = 2 ^ k * 2 ^ (E - 52) := by
  rw [zpow_add₀ (by norm_num : (2 : ℚ) ≠ 0), zpow_natCast, mul_comm]

/-- Below the midpoint between a `double` and its successor, rounding gives at most that
`double`. -/
theorem round_mag_le_of_lt (M : ℕ) (E : ℤ) (hM1 : 2 ^ 52 ≤ M) (hM2 : M < 2 ^ 53)
    (hE : -1022 ≤ E) (hE2 : E ≤ 1023) (q : ℚ) (hq : 0 < q)
    (h : q < ((M : ℚ) + 1 / 2) * 2 ^ (E - 52)) :
    ∃ r, round_mag q = some r ∧ r ≤ (M : ℚ) * 2 ^ (E - 52) := by
  obtain ⟨hlo, hhi⟩ := ilog2_spec q hq
  have hM1q : (2 : ℚ) ^ 52 ≤ M := by exact_mod_cast hM1
  have hM2q : (M : ℚ) + 1 ≤ 2 ^ 53 := by exact_mod_cast hM2
  have hQE : (0 : ℚ) < 2 ^ (E - 52) := by positivity
  have hE1 : (2 : ℚ) ^ (E + 1) = 2 ^ 53 * 2 ^ (E - 52) := by
    rw [← zpow_two_split E 53]
    congr 1
    push_cast
    ring
  have hE0 : (2 : ℚ) ^ E = 2 ^ 52 * 2 ^ (E - 52) := by
    rw [← zpow_two_split E 52]
    congr 1
    push_cast
    ring
  have hmid : q < (2 : ℚ) ^ (E + 1) := by
    rw [hE1]
    nlinarith
  have heE : ilog2 q ≤ E := by
    by_contra hc
    have h1 : E + 1 ≤ ilog2 q := by omega
    have h2 : (2 : ℚ) ^ (E + 1) ≤ 2 ^ ilog2 q := zpow_le_zpow_right₀ (by norm_num) h1
    linarith
  have hmaxE : max (ilog2 q) (-1022) ≤ E := max_le heE hE
  have hmaxe : ilog2 q ≤ max (ilog2 q) (-1022) := le_max_left _ _
  unfold round_mag
  rw [if_neg hq.ne']
  simp only [pow2_eq_zpow]
  generalize max (ilog2 q) (-1022) = E' at hmaxE hmaxe ⊢
  have hQ : (0 : ℚ) < 2 ^ (E' - 52) := by positivity
  have hq' : q < (2 : ℚ) ^ 53 * 2 ^ (E' - 52) := by
    have h1 : (2 : ℚ) ^ (ilog2 q + 1) ≤ 2 ^ (E' + 1) :=
      zpow_le_zpow_right₀ (by norm_num) (by omega)
    have h2 : (2 : ℚ) ^ (E' + 1) = 2 ^ 53 * 2 ^ (E' - 52) := by
      rw [← zpow_two_split E' 53]
      congr 1
      push_cast
      ring
    linarith
  obtain ⟨hnear, -⟩ := round_half_even_near (q / 2 ^ (E' - 52)) (by positivity)
  have hmain : (round_half_even (q / 2 ^ (E' - 52)) : ℚ) * 2 ^ (E' - 52)
      ≤ (M : ℚ) * 2 ^ (E - 52) := by
    rcases eq_or_lt_of_le hmaxE with heq | hlt
    · subst heq
      have h1 : q / 2 ^ (E' - 52) < (M : ℚ) + 1 / 2 := by
        rw [div_lt_iff₀ hQ]
        exact h
      have h2 : (round_half_even (q / 2 ^ (E' - 52)) : ℚ) < ((M + 1 : ℕ) : ℚ) := by
        push_cast
        linarith
      have h3 : round_half_even (q / 2 ^ (E' - 52)) ≤ M :=
        Nat.lt_succ_iff.mp (by exact_mod_cast h2)
      have h4 : (round_half_even (q / 2 ^ (E' - 52)) : ℚ) ≤ M := by exact_mod_cast h3
      exact mul_le_mul_of_nonneg_right h4 hQ.le
    · have h1 : q / 2 ^ (E' - 52) < 2 ^ 53 := by
        rw [div_lt_iff₀ hQ]
        exact hq'
      have h2 : (round_half_even (q / 2 ^ (E' - 52)) : ℚ) < ((2 ^ 53 + 1 : ℕ) : ℚ) := by
        push_cast
        linarith
      have h3 : round_half_even (q / 2 ^ (E' - 52)) ≤ 2 ^ 53 :=
        Nat.lt_succ_iff.mp (by exact_mod_cast h2)
      have h4 : (round_half_even (q / 2 ^ (E' - 52)) : ℚ) ≤ 2 ^ 53 := by exact_mod_cast h3
      have h5 : (2 : ℚ) ^ 53 * 2 ^ (E' - 52) ≤ 2 ^ E := by
        have h6 : (2 : ℚ) ^ 53 * 2 ^ (E' - 52) = 2 ^ (E' + 1) := by
          rw [← zpow_two_split E' 53]
          congr 1
          push_cast
          ring
        rw [h6]
        exact zpow_le_zpow_right₀ (by norm_num) (by omega)
      calc (round_half_even (q / 2 ^ (E' - 52)) : ℚ) * 2 ^ (E' - 52)
          ≤ 2 ^ 53 * 2 ^ (E' - 52) := mul_le_mul_of_nonneg_right h4 hQ.le
        _ ≤ 2 ^ E := h5
        _ = 2 ^ 52 * 2 ^ (E - 52) := hE0
        _ ≤ (M : ℚ) * 2 ^ (E - 52) := mul_le_mul_of_nonneg_right hM1q hQE.le
  have hfin : ¬ (2 : ℚ) ^ (1024 : ℤ)
      ≤ (round_half_even (q / 2 ^ (E' - 52)) : ℚ) * 2 ^ (E' - 52) := by
    have h1 : (M : ℚ) * 2 ^ (E - 52) < 2 ^ (E + 1) := by
      rw [hE1]
      nlinarith
    have h2 : (2 : ℚ) ^ (E + 1) ≤ 2 ^ (1024 : ℤ) :=
      zpow_le_zpow_right₀ (by norm_num) (by omega)
    linarith
  rw [if_neg hfin]
  exact ⟨_, rfl, hmain⟩

/-- From the midpoint between a `double` with an odd significand and its successor on,
rounding gives more than that `double`. -/
theorem round_mag_gt_of_ge (M : ℕ) (E : ℤ) (hM1 : 2 ^ 52 ≤ M) (hM2 : M < 2 ^ 53)
    (hE : -1022 ≤ E) (htie : round_half_even ((M : ℚ) + 1 / 2) = M + 1) (q : ℚ)
    (h : ((M : ℚ) + 1 / 2) * 2 ^ (E - 52) ≤ q) (r : ℚ) (hr : round_mag q = some r) :
    (M : ℚ) * 2 ^ (E - 52) < r := by
  have hM1q : (2 : ℚ) ^ 52 ≤ M := by exact_mod_cast hM1
  have hM2q : (M : ℚ) + 1 ≤ 2 ^ 53 := by exact_mod_cast hM2
  have hQE : (0 : ℚ) < 2 ^ (E - 52) := by positivity
  have hq : 0 < q := lt_of_lt_of_le (by positivity) h
  obtain ⟨hlo, hhi⟩ := ilog2_spec q hq
  have hE0 : (2 : ℚ) ^ E = 2 ^ 52 * 2 ^ (E - 52) := by
    rw [← zpow_two_split E 52]
    congr 1
    push_cast
    ring
  have hEq : (2 : ℚ) ^ E ≤ q := by
    rw [hE0]
    nlinarith
  have heE : E ≤ ilog2 q := by
    by_contra hc
    have h1 : ilog2 q + 1 ≤ E := by omega
    have h2 : (2 : ℚ) ^ (ilog2 q + 1) ≤ 2 ^ E := zpow_le_zpow_right₀ (by norm_num) h1
    linarith
  have hmax : max (ilog2 q) (-1022) = ilog2 q := max_eq_left (by omega)
  unfold round_mag at hr
  rw [if_neg hq.ne'] at hr
  simp only [pow2_eq_zpow, hmax] at hr
  generalize ilog2 q = e at hlo hhi heE hr
  have hQ : (0 : ℚ) < 2 ^ (e - 52) := by positivity
  obtain ⟨-, hnear⟩ := round_half_even_near (q / 2 ^ (e - 52)) (by positivity)
  split at hr
  · exact absurd hr (by simp)
  · have hr' : r = (round_half_even (q / 2 ^ (e - 52)) : ℚ) * 2 ^ (e - 52) :=
      (Option.some.inj hr).symm
    rw [hr']
    rcases eq_or_lt_of_le heE with heq | hlt
    · subst heq
      have h1 : (M : ℚ) + 1 / 2 ≤ q / 2 ^ (E - 52) := by
        rw [le_div_iff₀ hQ]
        exact h
      have h2 : M + 1 ≤ round_half_even (q / 2 ^ (E - 52)) := by
        rcases eq_or_lt_of_le h1 with heq2 | hlt2
        · rw [← heq2, htie]
        · have h3 : ((M : ℕ) : ℚ) < (round_half_even (q / 2 ^ (E - 52)) : ℚ) := by
            linarith
          exact Nat.succ_le_of_lt (by exact_mod_cast h3)
      have h4 : ((M : ℚ) + 1) ≤ (round_half_even (q / 2 ^ (E - 52)) : ℚ) := by
        exact_mod_cast h2
      nlinarith
    · have h1 : (2 : ℚ) ^ 52 ≤ q / 2 ^ (e - 52) := by
        rw [le_div_iff₀ hQ]
        have : (2 : ℚ) ^ e = 2 ^ 52 * 2 ^ (e - 52) := by
          rw [← zpow_two_split e 52]
          congr 1
          push_cast
          ring
        linarith
      have h2 : ((2 ^ 52 - 1 : ℕ) : ℚ)
          < (round_half_even (q / 2 ^ (e - 52)) : ℚ) := by
        push_cast
        linarith
      have h3 : 2 ^ 52 ≤ round_half_even (q / 2 ^ (e - 52)) := by
        have : 2 ^ 52 - 1 < round_half_even (q / 2 ^ (e - 52)) := by exact_mod_cast h2
        omega
      have h4 : (2 : ℚ) ^ 52 ≤ (round_half_even (q / 2 ^ (e - 52)) : ℚ) := by
        exact_mod_cast h3
      have h5 : (2 : ℚ) ^ (E + 1) ≤ 2 ^ e := zpow_le_zpow_right₀ (by norm_num) (by omega)
      have h6 : (2 : ℚ) ^ (E + 1) = 2 ^ 53 * 2 ^ (E - 52) := by
        rw [← zpow_two_split E 53]
        congr 1
        push_cast
        ring
      have h7 : (2 : ℚ) ^ e = 2 ^ 52 * 2 ^ (e - 52) := by
        rw [← zpow_two_split e 52]
        congr 1
        push_cast
        ring
      have h8 : (2 : ℚ) ^ 52 * 2 ^ (e - 52)
          ≤ (round_half_even (q / 2 ^ (e - 52)) : ℚ) * 2 ^ (e - 52) :=
        mul_le_mul_of_nonneg_right h4 hQ.le
      have h9 : (M : ℚ) * 2 ^ (E - 52) < 2 ^ 53 * 2 ^ (E - 52) := by nlinarith
      linarith


/-- On finite values the test `fabs(x - last) > t`, for a threshold `t` with an odd
significand, holds exactly when the exact distance of the two values reaches the midpoint
between `t` and the next `double` above it. -/
theorem gate_finite_iff (M : ℕ) (E : ℤ) (hM1 : 2 ^ 52 ≤ M) (hM2 : M < 2 ^ 53)
    (hE : -1022 ≤ E) (hE2 : E ≤ 1023) (htie : round_half_even ((M : ℚ) + 1 / 2) = M + 1)
    (n1 n2 : Bool) (m1 m2 : ℚ) :
    Double.gt (fabs (Double.sub (Double.finite n1 m1) (Double.finite n2 m2)))
        (Double.finite false ((M : ℚ) * 2 ^ (E - 52))) = true ↔
      ((M : ℚ) + 1 / 2) * 2 ^ (E - 52) ≤ |Double.signed n1 m1 - Double.signed n2 m2| := by
  have hQE : (0 : ℚ) < 2 ^ (E - 52) := by positivity
  have hM0 : (0 : ℚ) ≤ M := Nat.cast_nonneg M
  have ht : (0 : ℚ) ≤ (M : ℚ) * 2 ^ (E - 52) := by positivity
  have hmid : (0 : ℚ) < ((M : ℚ) + 1 / 2) * 2 ^ (E - 52) := by positivity
  have hsub : Double.sub (Double.finite n1 m1) (Double.finite n2 m2)
      = if Double.signed n1 m1 - Double.signed n2 m2 = 0 then Double.finite (n1 && !n2) 0
        else to_double (Double.signed n1 m1 - Double.signed n2 m2) := rfl
  rw [hsub]
  generalize Double.signed n1 m1 - Double.signed n2 m2 = d
  by_cases hd : d = 0
  · rw [if_pos hd, hd, abs_zero]
    simp only [fabs, Double.gt, Double.signed, Bool.false_eq_true, if_false,
      decide_eq_true_eq]
    constructor
    · intro h
      linarith
    · intro h
      linarith
  · have hpos : 0 < |d| := abs_pos.mpr hd
    rw [if_neg hd]
    unfold to_double
    cases hrm : round_mag |d| with
    | none =>
      simp only [fabs, Double.gt, Bool.not_false, true_iff]
      by_contra hc
      obtain ⟨r, hr, -⟩ := round_mag_le_of_lt M E hM1 hM2 hE hE2 |d| hpos (lt_of_not_le hc)
      rw [hrm] at hr
      exact absurd hr (by simp)
    | some r =>
      simp only [fabs, Double.gt, Double.signed, Bool.false_eq_true, if_false,
        decide_eq_true_eq]
      constructor
      · intro h
        by_contra hc
        obtain ⟨r', hr', hle⟩ :=
          round_mag_le_of_lt M E hM1 hM2 hE hE2 |d| hpos (lt_of_not_le hc)
        rw [hrm] at hr'
        have : r = r' := Option.some.inj hr'
        linarith
      · intro h
        exact round_mag_gt_of_ge M E hM1 hM2 hE htie |d| h r hrm

/-- The difference of a `double` and itself is never greater than a positive finite
threshold: it is zero, or NaN when the value is an infinity or a NaN. -/
theorem gate_self (x : Double) (t : ℚ) (ht : 0 ≤ t) :
    Double.gt (fabs (Double.sub x x)) (Double.finite false t) = false := by
  cases x with
  | finite neg mag =>
    simp only [Double.sub, sub_self, if_true, fabs, Double.gt, Double.signed, Bool.false_eq_true,
      if_false, decide_eq_false_iff_not, not_lt]
    exact ht
  | inf neg => simp [Double.sub, fabs, Double.gt]
  | nan => simp [Double.sub, fabs, Double.gt]

/-- The coordinate gate compares a value with itself as unchanged. -/
theorem coordinate_gate_self (x : Double) :
    Double.gt (fabs (Double.sub x x)) (to_double (1 / 1000000)) = false := by
  rw [to_double_0_000001]
  exact gate_self x _ (by norm_num)

/-- The speed gate compares a value with itself as unchanged. -/
theorem speed_gate_self (x : Double) :
    Double.gt (fabs (Double.sub x x)) (to_double (1 / 100)) = false := by
  rw [to_double_0_01]
  exact gate_self x _ (by norm_num)

/-- On finite values the coordinate gate is passed exactly when the exact distance of the
two values is at least `9444732965739291 / 2 ^ 73`, the midpoint between the `double`
0.000001 and the next `double` above it. -/
theorem coordinate_gate_exact (n1 n2 : Bool) (m1 m2 : ℚ) :
    Double.gt (fabs (Double.sub (Double.finite n1 m1) (Double.finite n2 m2)))
        (to_double (1 / 1000000)) = true ↔
      9444732965739291 / 2 ^ 73 ≤ |Double.signed n1 m1 - Double.signed n2 m2| := by
  have h := gate_finite_iff 4722366482869645 (-20) (by norm_num) (by norm_num) (by norm_num)
    (by norm_num) (by decide!) n1 n2 m1 m2
  have e1 : ((4722366482869645 : ℕ) : ℚ) * 2 ^ ((-20 : ℤ) - 52)
      = 4722366482869645 / 2 ^ 72 := by
    norm_num [zpow_neg]
  have e2 : (((4722366482869645 : ℕ) : ℚ) + 1 / 2) * 2 ^ ((-20 : ℤ) - 52)
      = 9444732965739291 / 2 ^ 73 := by
    norm_num [zpow_neg]
  rw [e1, e2] at h
  rw [to_double_0_000001]
  exact h

/-! ### GPS fields -/

/-- A gated block appends one label write to the log when it runs and nothing otherwise, and
raises `needs_update` exactly when it runs. -/
theorem gated_block_calls (c : Prop) [Decidable c] (f : GpsFrame) (st : GpsState)
    (w : GpsCall) (hw : w.isWrite = true) (hst : st.gps_calls = f.st.gps_calls ++ [w]) :
    ∃ ws : List GpsCall, (∀ x, x ∈ ws → x.isWrite = true) ∧
      (if c then ({ st := st, needs_update := true } : GpsFrame) else f).st.gps_calls
        = f.st.gps_calls ++ ws ∧
      (if c then ({ st := st, needs_update := true } : GpsFrame) else f).needs_update
        = (f.needs_update || !ws.isEmpty) := by
  by_cases h : c
  · exact ⟨[w], by simpa using hw, by simp [h, hst], by simp [h]⟩
  · exact ⟨[], by simp, by simp [h], by simp [h]⟩

theorem updateGPS_use_sec_calls (a : GpsArgs) (f : GpsFrame) :
    ∃ ws : List GpsCall, (∀ x, x ∈ ws → x.isWrite = true) ∧
      (updateGPS_use_sec a f).st.gps_calls = f.st.gps_calls ++ ws ∧
      (updateGPS_use_sec a f).needs_update = (f.needs_update || !ws.isEmpty) := by
  by_cases h0 : a.use_sec = 0
  · exact gated_block_calls _ f _ (GpsCall.lv_label_set_text GpsLabel.label_use_seconds "N.A")
      rfl (by simp [h0, gps_set_text])
  · exact gated_block_calls _ f _
      (GpsCall.lv_label_set_text GpsLabel.label_use_seconds (Nat.repr a.use_sec))
      rfl (by simp [h0, gps_set_text])

theorem updateGPS_lng_calls (a : GpsArgs) (f : GpsFrame) :
    ∃ ws : List GpsCall, (∀ x, x ∈ ws → x.isWrite = true) ∧
      (updateGPS_lng a f).st.gps_calls = f.st.gps_calls ++ ws ∧
      (updateGPS_lng a f).needs_update = (f.needs_update || !ws.isEmpty) :=
  gated_block_calls _ f _ (GpsCall.lv_label_set_text GpsLabel.label_lng (format_fixed 6 a.lng))
    rfl rfl

theorem updateGPS_lat_calls (a : GpsArgs) (f : GpsFrame) :
    ∃ ws : List GpsCall, (∀ x, x ∈ ws → x.isWrite = true) ∧
      (updateGPS_lat a f).st.gps_calls = f.st.gps_calls ++ ws ∧
      (updateGPS_lat a f).needs_update = (f.needs_update || !ws.isEmpty) :=
  gated_block_calls _ f _ (GpsCall.lv_label_set_text GpsLabel.label_lat (format_fixed 6 a.lat))
    rfl rfl

theorem updateGPS_date_calls (a : GpsArgs) (f : GpsFrame) :
    ∃ ws : List GpsCall, (∀ x, x ∈ ws → x.isWrite = true) ∧
      (updateGPS_date a f).st.gps_calls = f.st.gps_calls ++ ws ∧
      (updateGPS_date a f).needs_update = (f.needs_update || !ws.isEmpty) :=
  gated_block_calls _ f _
    (GpsCall.lv_label_set_text GpsLabel.label_date
      (Nat.repr a.year ++ "/" ++ Nat.repr a.month ++ "/" ++ Nat.repr a.day))
    rfl rfl

theorem updateGPS_time_calls (a : GpsArgs) (f : GpsFrame) :
    ∃ ws : List GpsCall, (∀ x, x ∈ ws → x.isWrite = true) ∧
      (updateGPS_time a f).st.gps_calls = f.st.gps_calls ++ ws ∧
      (updateGPS_time a f).needs_update = (f.needs_update || !ws.isEmpty) :=
  gated_block_calls _ f _
    (GpsCall.lv_label_set_text GpsLabel.label_time
      (Nat.repr a.hour ++ ":" ++ zero_pad 2 (Nat.repr a.minute) ++ ":" ++
        zero_pad 2 (Nat.repr a.second)))
    rfl rfl

theorem updateGPS_speed_calls (a : GpsArgs) (f : GpsFrame) :
    ∃ ws : List GpsCall, (∀ x, x ∈ ws → x.isWrite = true) ∧
      (updateGPS_speed a f).st.gps_calls = f.st.gps_calls ++ ws ∧
      (updateGPS_speed a f).needs_update = (f.needs_update || !ws.isEmpty) :=
  gated_block_calls _ f _
    (GpsCall.lv_label_set_text GpsLabel.label_speed (format_fixed 2 a.speed)) rfl rfl

theorem updateGPS_rx_char_calls (a : GpsArgs) (f : GpsFrame) :
    ∃ ws : List GpsCall, (∀ x, x ∈ ws → x.isWrite = true) ∧
      (updateGPS_rx_char a f).st.gps_calls = f.st.gps_calls ++ ws ∧
      (updateGPS_rx_char a f).needs_update = (f.needs_update || !ws.isEmpty) :=
  gated_block_calls _ f _
    (GpsCall.lv_label_set_text GpsLabel.label_processchar (Nat.repr a.rx_char)) rfl rfl

/-- Running one block after another keeps the shape of the log. -/
theorem gated_calls_comp (g h : GpsFrame → GpsFrame)
    (hg : ∀ f, ∃ ws : List GpsCall, (∀ x, x ∈ ws → x.isWrite = true) ∧
      (g f).st.gps_calls = f.st.gps_calls ++ ws ∧
      (g f).needs_update = (f.needs_update || !ws.isEmpty))
    (hh : ∀ f, ∃ ws : List GpsCall, (∀ x, x ∈ ws → x.isWrite = true) ∧
      (h f).st.gps_calls = f.st.gps_calls ++ ws ∧
      (h f).needs_update = (f.needs_update || !ws.isEmpty))
    (f : GpsFrame) :
    ∃ ws : List GpsCall, (∀ x, x ∈ ws → x.isWrite = true) ∧
      (h (g f)).st.gps_calls = f.st.gps_calls ++ ws ∧
      (h (g f)).needs_update = (f.needs_update || !ws.isEmpty) := by
  obtain ⟨w1, hw1, hc1, hn1⟩ := hg f
  obtain ⟨w2, hw2, hc2, hn2⟩ := hh (g f)
  refine ⟨w1 ++ w2, ?_, ?_, ?_⟩
  · intro x hx
    rcases List.mem_append.mp hx with h1 | h2
    · exact hw1 x h1
    · exact hw2 x h2
  · rw [hc2, hc1, List.append_assoc]
  · rw [hn2, hn1]
    cases w1 <;> cases w2 <;> simp

/-- C15, amended. Every call of `updateGPS`, for every argument tuple and every prior cached
state, first issues exactly one `ui_batch_style_updates_begin`, then the label writes of
the fields that changed, and issues `ui_batch_style_updates_end`, exactly once and as its
last call, if and only if at least one label was written; a call in which no field changed
issues no `ui_batch_style_updates_end`. -/
theorem updateGPS_batch_calls (a : GpsArgs) (s : GpsState) :
    ∃ ws : List GpsCall, (∀ x, x ∈ ws → x.isWrite = true) ∧
      (updateGPS a s).gps_calls =
        s.gps_calls ++ GpsCall.ui_batch_style_updates_begin ::
          (ws ++ if ws = [] then [] else [GpsCall.ui_batch_style_updates_end]) := by
  obtain ⟨ws, hws, hcalls, hneeds⟩ :=
    gated_calls_comp _ _
      (gated_calls_comp _ _
        (gated_calls_comp _ _
          (gated_calls_comp _ _
            (gated_calls_comp _ _
              (gated_calls_comp _ _ (updateGPS_use_sec_calls a) (updateGPS_lng_calls a))
              (updateGPS_lat_calls a))
            (updateGPS_date_calls a))
          (updateGPS_time_calls a))
        (updateGPS_speed_calls a))
      (updateGPS_rx_char_calls a)
      { st := ui_batch_style_updates_begin s, needs_update := false }
  refine ⟨ws, hws, ?_⟩
  unfold updateGPS
  simp only []
  rw [hneeds]
  cases ws with
  | nil =>
    simp only [List.isEmpty_nil, Bool.not_true, Bool.or_false, Bool.false_eq_true, if_false]
    rw [hcalls]
    simp [ui_batch_style_updates_begin]
  | cons w rest =>
    simp only [List.isEmpty_cons, Bool.not_false, Bool.or_true, if_true,
      ui_batch_style_updates_end]
    rw [hcalls]
    simp [ui_batch_style_updates_begin]

/-- C15, as stated, fails: a second `updateGPS` call with the arguments of the first changes
no field, and issues `ui_batch_style_updates_begin` without any
`ui_batch_style_updates_end`. -/
theorem updateGPS_unchanged_call_skips_end :
    (updateGPS ⟨to_double 45, to_double 9, 2024, 7, 15, 12, 30, 5, to_double 0, 100, 3⟩
        (updateGPS ⟨to_double 45, to_double 9, 2024, 7, 15, 12, 30, 5, to_double 0, 100, 3⟩
          gps_startup)).gps_calls =
      (updateGPS ⟨to_double 45, to_double 9, 2024, 7, 15, 12, 30, 5, to_double 0, 100, 3⟩
        gps_startup).gps_calls ++ [GpsCall.ui_batch_style_updates_begin] := by
  decide!

/-- The values `updateGPS` leaves in its statics. -/
theorem updateGPS_statics (a : GpsArgs) (s : GpsState) :
    (updateGPS a s).last_use_sec = a.use_sec ∧
      (updateGPS a s).last_lng
        = (if Double.gt (fabs (Double.sub a.lng s.last_lng)) (to_double (1 / 1000000))
           then a.lng else s.last_lng) ∧
      (updateGPS a s).last_lat
        = (if Double.gt (fabs (Double.sub a.lat s.last_lat)) (to_double (1 / 1000000))
           then a.lat else s.last_lat) ∧
      ((updateGPS a s).last_year = a.year ∧ (updateGPS a s).last_month = a.month ∧
        (updateGPS a s).last_day = a.day) ∧
      ((updateGPS a s).last_hour = a.hour ∧ (updateGPS a s).last_minute = a.minute ∧
        (updateGPS a s).last_second = a.second) ∧
      (updateGPS a s).last_speed
        = (if Double.gt (fabs (Double.sub a.speed s.last_speed)) (to_double (1 / 100))
           then a.speed else s.last_speed) ∧
      (updateGPS a s).last_rx_char = a.rx_char := by
  refine ⟨?_, ?_, ?_, ?_, ?_, ?_, ?_⟩
  · simp only [updateGPS, updateGPS_use_sec, updateGPS_lng, updateGPS_lat, updateGPS_date,
      updateGPS_time, updateGPS_speed, updateGPS_rx_char, ui_batch_style_updates_begin,
      ui_batch_style_updates_end, gps_set_text, apply_ite GpsFrame.st,
      apply_ite GpsState.last_use_sec, ite_self]
    split_ifs <;> simp_all
  · simp only [updateGPS, updateGPS_use_sec, updateGPS_lng, updateGPS_lat, updateGPS_date,
      updateGPS_time, updateGPS_speed, updateGPS_rx_char, ui_batch_style_updates_begin,
      ui_batch_style_updates_end, gps_set_text, apply_ite GpsFrame.st,
      apply_ite GpsState.last_lng, ite_self]
  · simp only [updateGPS, updateGPS_use_sec, updateGPS_lng, updateGPS_lat, updateGPS_date,
      updateGPS_time, updateGPS_speed, updateGPS_rx_char, ui_batch_style_updates_begin,
      ui_batch_style_updates_end, gps_set_text, apply_ite GpsFrame.st,
      apply_ite GpsState.last_lat, apply_ite GpsState.last_lng, ite_self]
  · simp only [updateGPS, updateGPS_use_sec, updateGPS_lng, updateGPS_lat, updateGPS_date,
      updateGPS_time, updateGPS_speed, updateGPS_rx_char, ui_batch_style_updates_begin,
      ui_batch_style_updates_end, gps_set_text, apply_ite GpsFrame.st,
      apply_ite GpsState.last_year, apply_ite GpsState.last_month,
      apply_ite GpsState.last_day, ite_self]
    split_ifs <;> simp_all
  · simp only [updateGPS, updateGPS_use_sec, updateGPS_lng, updateGPS_lat, updateGPS_date,
      updateGPS_time, updateGPS_speed, updateGPS_rx_char, ui_batch_style_updates_begin,
      ui_batch_style_updates_end, gps_set_text, apply_ite GpsFrame.st,
      apply_ite GpsState.last_hour, apply_ite GpsState.last_minute,
      apply_ite GpsState.last_second, ite_self]
    split_ifs <;> simp_all
  · simp only [updateGPS, updateGPS_use_sec, updateGPS_lng, updateGPS_lat, updateGPS_date,
      updateGPS_time, updateGPS_speed, updateGPS_rx_char, ui_batch_style_updates_begin,
      ui_batch_style_updates_end, gps_set_text, apply_ite GpsFrame.st,
      apply_ite GpsState.last_speed, ite_self]
  · simp only [updateGPS, updateGPS_use_sec, updateGPS_lng, updateGPS_lat, updateGPS_date,
      updateGPS_time, updateGPS_speed, updateGPS_rx_char, ui_batch_style_updates_begin,
      ui_batch_style_updates_end, gps_set_text, apply_ite GpsFrame.st,
      apply_ite GpsState.last_rx_char, ite_self]
    split_ifs <;> simp_all

/-- The text `updateGPS` leaves in the latitude and longitude labels. -/
theorem updateGPS_coordinate_text (a : GpsArgs) (s : GpsState) :
    (updateGPS a s).text GpsLabel.label_lat
        = (if Double.gt (fabs (Double.sub a.lat s.last_lat)) (to_double (1 / 1000000))
           then format_fixed 6 a.lat else s.text GpsLabel.label_lat) ∧
      (updateGPS a s).text GpsLabel.label_lng
        = (if Double.gt (fabs (Double.sub a.lng s.last_lng)) (to_double (1 / 1000000))
           then format_fixed 6 a.lng else s.text GpsLabel.label_lng) := by
  constructor <;>
    simp only [updateGPS, updateGPS_use_sec, updateGPS_lng, updateGPS_lat, updateGPS_date,
      updateGPS_time, updateGPS_speed, updateGPS_rx_char, ui_batch_style_updates_begin,
      ui_batch_style_updates_end, gps_set_text, apply_ite GpsFrame.st,
      apply_ite GpsState.text, apply_ite GpsState.last_lat, apply_ite GpsState.last_lng,
      ite_apply, Function.update_apply, reduceCtorEq, if_false, if_true, ite_self]

/-- A call in which no field differs from its cached value only opens the batch. -/
theorem updateGPS_of_unchanged (a : GpsArgs) (s : GpsState)
    (h1 : a.use_sec = s.last_use_sec)
    (h2 : Double.gt (fabs (Double.sub a.lng s.last_lng)) (to_double (1 / 1000000)) = false)
    (h3 : Double.gt (fabs (Double.sub a.lat s.last_lat)) (to_double (1 / 1000000)) = false)
    (h4 : a.year = s.last_year ∧ a.month = s.last_month ∧ a.day = s.last_day)
    (h5 : a.hour = s.last_hour ∧ a.minute = s.last_minute ∧ a.second = s.last_second)
    (h6 : Double.gt (fabs (Double.sub a.speed s.last_speed)) (to_double (1 / 100)) = false)
    (h7 : a.rx_char = s.last_rx_char) :
    updateGPS a s = ui_batch_style_updates_begin s := by
  have e1 : updateGPS_use_sec a { st := ui_batch_style_updates_begin s, needs_update := false }
      = { st := ui_batch_style_updates_begin s, needs_update := false } := by
    unfold updateGPS_use_sec
    exact if_neg (not_not.mpr h1)
  have e2 : updateGPS_lng a { st := ui_batch_style_updates_begin s, needs_update := false }
      = { st := ui_batch_style_updates_begin s, needs_update := false } := by
    unfold updateGPS_lng
    exact if_neg (by simp only [ui_batch_style_updates_begin, h2, Bool.false_eq_true,
      not_false_eq_true])
  have e3 : updateGPS_lat a { st := ui_batch_style_updates_begin s, needs_update := false }
      = { st := ui_batch_style_updates_begin s, needs_update := false } := by
    unfold updateGPS_lat
    exact if_neg (by simp only [ui_batch_style_updates_begin, h3, Bool.false_eq_true,
      not_false_eq_true])
  have e4 : updateGPS_date a { st := ui_batch_style_updates_begin s, needs_update := false }
      = { st := ui_batch_style_updates_begin s, needs_update := false } := by
    unfold updateGPS_date
    refine if_neg ?_
    rintro (h | h | h)
    exacts [h h4.1, h h4.2.1, h h4.2.2]
  have e5 : updateGPS_time a { st := ui_batch_style_updates_begin s, needs_update := false }
      = { st := ui_batch_style_updates_begin s, needs_update := false } := by
    unfold updateGPS_time
    refine if_neg ?_
    rintro (h | h | h)
    exacts [h h5.1, h h5.2.1, h h5.2.2]
  have e6 : updateGPS_speed a { st := ui_batch_style_updates_begin s, needs_update := false }
      = { st := ui_batch_style_updates_begin s, needs_update := false } := by
    unfold updateGPS_speed
    exact if_neg (by simp only [ui_batch_style_updates_begin, h6, Bool.false_eq_true,
      not_false_eq_true])
  have e7 : updateGPS_rx_char a { st := ui_batch_style_updates_begin s, needs_update := false }
      = { st := ui_batch_style_updates_begin s, needs_update := false } := by
    unfold updateGPS_rx_char
    exact if_neg (not_not.mpr h7)
  unfold updateGPS
  simp only [e1, e2, e3, e4, e5, e6, e7, Bool.false_eq_true, if_false]

/-- A repeated call with the same arguments finds nothing to update. -/
theorem updateGPS_repeat (a : GpsArgs) (s : GpsState) :
    updateGPS a (updateGPS a s) = ui_batch_style_updates_begin (updateGPS a s) := by
  obtain ⟨h1, h2, h3, h4, h5, h6, h7⟩ := updateGPS_statics a s
  apply updateGPS_of_unchanged
  · exact h1.symm
  · rw [h2]
    split_ifs with h
    · exact coordinate_gate_self a.lng
    · exact Bool.eq_false_iff.mpr h
  · rw [h3]
    split_ifs with h
    · exact coordinate_gate_self a.lat
    · exact Bool.eq_false_iff.mpr h
  · exact ⟨h4.1.symm, h4.2.1.symm, h4.2.2.symm⟩
  · exact ⟨h5.1.symm, h5.2.1.symm, h5.2.2.symm⟩
  · rw [h6]
    split_ifs with h
    · exact speed_gate_self a.speed
    · exact Bool.eq_false_iff.mpr h
  · exact h7.symm

/-- C17. `updateGPS` is idempotent: for every argument tuple and every prior state, a second
call with the same arguments only opens the batch; it writes no label, changes no cached
value and does not call `ui_batch_style_updates_end`. -/
theorem updateGPS_idempotent (a : GpsArgs) (s : GpsState) :
    updateGPS a (updateGPS a s) = ui_batch_style_updates_begin (updateGPS a s) ∧
      (updateGPS a (updateGPS a s)).gps_calls =
        (updateGPS a s).gps_calls ++ [GpsCall.ui_batch_style_updates_begin] ∧
      (updateGPS a (updateGPS a s)).text = (updateGPS a s).text ∧
      ((updateGPS a (updateGPS a s)).last_lat = (updateGPS a s).last_lat ∧
        (updateGPS a (updateGPS a s)).last_lng = (updateGPS a s).last_lng ∧
        (updateGPS a (updateGPS a s)).last_speed = (updateGPS a s).last_speed) ∧
      ((updateGPS a (updateGPS a s)).last_year = (updateGPS a s).last_year ∧
        (updateGPS a (updateGPS a s)).last_month = (updateGPS a s).last_month ∧
        (updateGPS a (updateGPS a s)).last_day = (updateGPS a s).last_day) ∧
      ((updateGPS a (updateGPS a s)).last_hour = (updateGPS a s).last_hour ∧
        (updateGPS a (updateGPS a s)).last_minute = (updateGPS a s).last_minute ∧
        (updateGPS a (updateGPS a s)).last_second = (updateGPS a s).last_second) ∧
      ((updateGPS a (updateGPS a s)).last_rx_char = (updateGPS a s).last_rx_char ∧
        (updateGPS a (updateGPS a s)).last_use_sec = (updateGPS a s).last_use_sec) := by
  rw [updateGPS_repeat a s]
  exact ⟨rfl, rfl, rfl, ⟨rfl, rfl, rfl⟩, ⟨rfl, rfl, rfl⟩, ⟨rfl, rfl, rfl⟩, rfl, rfl⟩

/-- The digits printed after the decimal point are exactly `prec` many. -/
theorem fraction_digits_length (prec n : Nat) (hprec : 0 < prec) :
    (fraction_digits prec n).length = prec := by
  have hlen : (Nat.repr (n % 10 ^ prec)).length ≤ prec :=
    Nat.repr_length _ prec hprec (Nat.mod_lt _ (Nat.pos_pow_of_pos prec (by decide)))
  unfold fraction_digits zero_pad
  rw [String.length_append]
  have h : (String.mk (List.replicate (prec - (Nat.repr (n % 10 ^ prec)).length) '0')).length
      = prec - (Nat.repr (n % 10 ^ prec)).length :=
    List.length_replicate _ _
  omega

/-- C13, as stated, fails: with -1e-22 rendered last (as "-0.000000"), an update to the
`double` 0.000001 differs from the cached value by more than 0.000001 when the two values
are taken as exact numbers, yet the difference computed in double precision rounds to the
`double` 0.000001 itself, the gate is not passed, and neither the label nor `last_lat`
changes. -/
theorem updateGPS_coordinate_gate_rounds_difference :
    ((updateGPS
        ⟨to_double (-1 / 10 ^ 22), to_double 9, 2024, 7, 15, 12, 30, 5, to_double 0, 100, 3⟩
        gps_startup).last_lat = Double.finite true (4253529586511731 / 2 ^ 125) ∧
      (updateGPS
        ⟨to_double (-1 / 10 ^ 22), to_double 9, 2024, 7, 15, 12, 30, 5, to_double 0, 100, 3⟩
        gps_startup).text GpsLabel.label_lat = "-0.000000") ∧
    (to_double (1 / 1000000) = Double.finite false (4722366482869645 / 2 ^ 72) ∧
      |(4722366482869645 / 2 ^ 72 : ℚ) - -(4253529586511731 / 2 ^ 125)| > 1 / 1000000) ∧
    ((updateGPS
        ⟨to_double (1 / 1000000), to_double 9, 2024, 7, 15, 12, 30, 5, to_double 0, 100, 3⟩
        (updateGPS
          ⟨to_double (-1 / 10 ^ 22), to_double 9, 2024, 7, 15, 12, 30, 5, to_double 0, 100, 3⟩
          gps_startup)).text GpsLabel.label_lat = "-0.000000" ∧
      (updateGPS
        ⟨to_double (1 / 1000000), to_double 9, 2024, 7, 15, 12, 30, 5, to_double 0, 100, 3⟩
        (updateGPS
          ⟨to_double (-1 / 10 ^ 22), to_double 9, 2024, 7, 15, 12, 30, 5, to_double 0, 100, 3⟩
          gps_startup)).last_lat = Double.finite true (4253529586511731 / 2 ^ 125)) := by
  decide!

/-- C13, amended. Coordinate change gate in double precision: in `updateGPS` the latitude
label is rewritten as the new value formatted with `%.6f` and `last_lat` is set to the new
value if and only if `fabs(lat - last_lat) > 0.000001` holds as the code computes it, the
difference being rounded to the nearest `double` and compared with the `double` nearest to
0.000001; otherwise the label text and `last_lat` stay as they were. The same holds for the
longitude. For finite values the test holds exactly when the exact distance of the two
values is at least `9444732965739291 / 2 ^ 73`, a little more than 0.000001. The text of a
finite value is sign, integer part, point and exactly six digits. -/
theorem updateGPS_coordinate_gate (a : GpsArgs) (s : GpsState) :
    ((updateGPS a s).text GpsLabel.label_lat
        = (if Double.gt (fabs (Double.sub a.lat s.last_lat)) (to_double (1 / 1000000))
           then format_fixed 6 a.lat else s.text GpsLabel.label_lat) ∧
      (updateGPS a s).last_lat
        = (if Double.gt (fabs (Double.sub a.lat s.last_lat)) (to_double (1 / 1000000))
           then a.lat else s.last_lat)) ∧
    ((updateGPS a s).text GpsLabel.label_lng
        = (if Double.gt (fabs (Double.sub a.lng s.last_lng)) (to_double (1 / 1000000))
           then format_fixed 6 a.lng else s.text GpsLabel.label_lng) ∧
      (updateGPS a s).last_lng
        = (if Double.gt (fabs (Double.sub a.lng s.last_lng)) (to_double (1 / 1000000))
           then a.lng else s.last_lng)) ∧
    (∀ (n1 n2 : Bool) (m1 m2 : ℚ),
      Double.gt (fabs (Double.sub (Double.finite n1 m1) (Double.finite n2 m2)))
          (to_double (1 / 1000000)) = true ↔
        9444732965739291 / 2 ^ 73 ≤ |Double.signed n1 m1 - Double.signed n2 m2|) ∧
    (1 / 1000000 < (9444732965739291 / 2 ^ 73 : ℚ)) ∧
    (∀ (neg : Bool) (mag : ℚ), ∃ n : Nat,
      format_fixed 6 (Double.finite neg mag)
        = (if neg then "-" else "") ++ Nat.repr (n / 10 ^ 6) ++ "." ++ fraction_digits 6 n ∧
      (fraction_digits 6 n).length = 6) := by
  obtain ⟨-, hlng, hlat, -⟩ := updateGPS_statics a s
  obtain ⟨tlat, tlng⟩ := updateGPS_coordinate_text a s
  exact ⟨⟨tlat, hlat⟩, ⟨tlng, hlng⟩, coordinate_gate_exact, by norm_num,
    fun neg mag => ⟨_, rfl, fraction_digits_length 6 _ (by decide)⟩⟩

/-- Witness for the amended C13: with 45.000000 rendered last, an update to 45.0000005
changes neither the label nor the cached value, and an update to 45.000002 renders
"45.000002". -/
theorem updateGPS_coordinate_gate_witness :
    ((updateGPS ⟨to_double 45, to_double 9, 2024, 7, 15, 12, 30, 5, to_double 0, 100, 3⟩
        gps_startup).last_lat = to_double 45 ∧
      (updateGPS ⟨to_double 45, to_double 9, 2024, 7, 15, 12, 30, 5, to_double 0, 100, 3⟩
        gps_startup).text GpsLabel.label_lat = "45.000000") ∧
    ((updateGPS
        ⟨to_double (450000005 / 10000000), to_double 9, 2024, 7, 15, 12, 30, 5, to_double 0,
          100, 3⟩
        (updateGPS ⟨to_double 45, to_double 9, 2024, 7, 15, 12, 30, 5, to_double 0, 100, 3⟩
          gps_startup)).text GpsLabel.label_lat = "45.000000" ∧
      (updateGPS
        ⟨to_double (450000005 / 10000000), to_double 9, 2024, 7, 15, 12, 30, 5, to_double 0,
          100, 3⟩
        (updateGPS ⟨to_double 45, to_double 9, 2024, 7, 15, 12, 30, 5, to_double 0, 100, 3⟩
          gps_startup)).last_lat = to_double 45) ∧
    ((updateGPS
        ⟨to_double (45000002 / 1000000), to_double 9, 2024, 7, 15, 12, 30, 5, to_double 0,
          100, 3⟩
        (updateGPS ⟨to_double 45, to_double 9, 2024, 7, 15, 12, 30, 5, to_double 0, 100, 3⟩
          gps_startup)).text GpsLabel.label_lat = "45.000002" ∧
      (updateGPS
        ⟨to_double (45000002 / 1000000), to_double 9, 2024, 7, 15, 12, 30, 5, to_double 0,
          100, 3⟩
        (updateGPS ⟨to_double 45, to_double 9, 2024, 7, 15, 12, 30, 5, to_double 0, 100, 3⟩
          gps_startup)).last_lat = to_double (45000002 / 1000000)) :=
  ⟨by decide!,
    ⟨(updateGPS_coordinate_gate
        ⟨to_double (450000005 / 10000000), to_double 9, 2024, 7, 15, 12, 30, 5, to_double 0,
          100, 3⟩
        (updateGPS ⟨to_double 45, to_double 9, 2024, 7, 15, 12, 30, 5, to_double 0, 100, 3⟩
          gps_startup)).1.1.trans (by decide!),
      (updateGPS_coordinate_gate
        ⟨to_double (450000005 / 10000000), to_double 9, 2024, 7, 15, 12, 30, 5, to_double 0,
          100, 3⟩
        (updateGPS ⟨to_double 45, to_double 9, 2024, 7, 15, 12, 30, 5, to_double 0, 100, 3⟩
          gps_startup)).1.2.trans (by decide!)⟩,
    ⟨(updateGPS_coordinate_gate
        ⟨to_double (45000002 / 1000000), to_double 9, 2024, 7, 15, 12, 30, 5, to_double 0,
          100, 3⟩
        (updateGPS ⟨to_double 45, to_double 9, 2024, 7, 15, 12, 30, 5, to_double 0, 100, 3⟩
          gps_startup)).1.1.trans (by decide!),
      (updateGPS_coordinate_gate
        ⟨to_double (45000002 / 1000000), to_double 9, 2024, 7, 15, 12, 30, 5, to_double 0,
          100, 3⟩
        (updateGPS ⟨to_double 45, to_double 9, 2024, 7, 15, 12, 30, 5, to_double 0, 100, 3⟩
          gps_startup)).1.2.trans (by decide!)⟩⟩

/-- The speed gate at its threshold: with 0.00 rendered last, an update to the `double` 0.01
is not greater than the `double` 0.01 and leaves the label and `last_speed` as they were. -/
theorem updateGPS_speed_at_threshold :
    (updateGPS ⟨to_double 45, to_double 9, 2024, 7, 15, 12, 30, 5, to_double 0, 100, 3⟩
        gps_startup).text GpsLabel.label_speed = "0.00" ∧
      (updateGPS
        ⟨to_double 45, to_double 9, 2024, 7, 15, 12, 30, 5, to_double (1 / 100), 100, 3⟩
        (updateGPS ⟨to_double 45, to_double 9, 2024, 7, 15, 12, 30, 5, to_double 0, 100, 3⟩
          gps_startup)).text GpsLabel.label_speed = "0.00" ∧
      (updateGPS
        ⟨to_double 45, to_double 9, 2024, 7, 15, 12, 30, 5, to_double (1 / 100), 100, 3⟩
        (updateGPS ⟨to_double 45, to_double 9, 2024, 7, 15, 12, 30, 5, to_double 0, 100, 3⟩
          gps_startup)).last_speed = to_double 0 := by
  decide!

/-- The gate of `ui_update_gps_fast` on its own caches: the same comparisons as in
`updateGPS`, the text going to a 16-byte buffer instead of a label; the batch is opened and
closed on every call. -/
theorem ui_update_gps_fast_gate (lat lng speed : Double) (s : GpsFastState) :
    (ui_update_gps_fast lat lng speed s).last_lat
        = (if Double.gt (fabs (Double.sub lat s.last_lat)) (to_double (1 / 1000000))
           then lat else s.last_lat) ∧
      (ui_update_gps_fast lat lng speed s).lat_buf
        = (if Double.gt (fabs (Double.sub lat s.last_lat)) (to_double (1 / 1000000))
           then snprintf 16 (format_fixed 6 lat) else s.lat_buf) ∧
      (ui_update_gps_fast lat lng speed s).last_lng
        = (if Double.gt (fabs (Double.sub lng s.last_lng)) (to_double (1 / 1000000))
           then lng else s.last_lng) ∧
      (ui_update_gps_fast lat lng speed s).lng_buf
        = (if Double.gt (fabs (Double.sub lng s.last_lng)) (to_double (1 / 1000000))
           then snprintf 16 (format_fixed 6 lng) else s.lng_buf) ∧
      (ui_update_gps_fast lat lng speed s).fast_calls
        = s.fast_calls ++ [GpsCall.ui_batch_style_updates_begin,
            GpsCall.ui_batch_style_updates_end] := by
  refine ⟨?_, ?_, ?_, ?_, ?_⟩ <;>
    simp only [ui_update_gps_fast, apply_ite GpsFastState.last_lat,
      apply_ite GpsFastState.lat_buf, apply_ite GpsFastState.last_lng,
      apply_ite GpsFastState.lng_buf, apply_ite GpsFastState.fast_calls, ite_self,
      List.append_assoc, List.singleton_append]

/-! ### Update-rate constants -/

/-- C22. Update-rate constants: `UI_REFRESH_RATE_MS` lies in [10, 33],
`UI_GPS_UPDATE_RATE_MS` lies in [100, 1000], and `UI_BATTERY_UPDATE_RATE_MS` and
`UI_WIFI_UPDATE_RATE_MS` are at least 1000. -/
theorem update_rate_constants_in_range :
    (10 ≤ UI_REFRESH_RATE_MS ∧ UI_REFRESH_RATE_MS ≤ 33) ∧
      (100 ≤ UI_GPS_UPDATE_RATE_MS ∧ UI_GPS_UPDATE_RATE_MS ≤ 1000) ∧
      1000 ≤ UI_BATTERY_UPDATE_RATE_MS ∧ 1000 ≤ UI_WIFI_UPDATE_RATE_MS := by
  decide

/-! ### Radio dropdowns -/

theorem option_count_radio_power_level_list : option_count radio_power_level_list = 7 := by
  decide

/-- C21. TX power range: for every index the TxPower dropdown can report (its seven
options, the default selection 6 among them), `radio_power_cb` reads an entry of
`radio_power_args_list` and passes a value between 2 and 22 dBm to `setTxPower`. -/
theorem radio_power_cb_in_range (index : Nat)
    (hindex : index < option_count radio_power_level_list) :
    power_default_sel < option_count radio_power_level_list ∧
      ∃ dBm, radio_power_cb index = some dBm ∧ 2 ≤ dBm ∧ dBm ≤ 22 := by
  rw [option_count_radio_power_level_list] at hindex ⊢
  refine ⟨by decide, ?_⟩
  interval_cases index
  · exact ⟨2, by decide!, by decide, by decide⟩
  · exact ⟨5, by decide!, by decide, by decide⟩
  · exact ⟨10, by decide!, by decide, by decide⟩
  · exact ⟨12, by decide!, by decide, by decide⟩
  · exact ⟨17, by decide!, by decide, by decide⟩
  · exact ⟨20, by decide!, by decide, by decide⟩
  · exact ⟨22, by decide!, by decide, by decide⟩

/-- Witness for C21: the default selection, index 6, passes 22 dBm. -/
theorem radio_power_cb_in_range_witness :
    power_default_sel < option_count radio_power_level_list ∧
      ∃ dBm, radio_power_cb 6 = some dBm ∧ 2 ≤ dBm ∧ dBm ≤ 22 :=
  radio_power_cb_in_range 6 (by decide)

/-- A table lookup below the length of the table succeeds. -/
theorem getElem?_isSome_of_lt {α : Type} (l : List α) (i : Nat) (h : i < l.length) :
    (l[i]?).isSome = true := by
  rw [List.getElem?_eq_getElem h]
  rfl

/-- C27. Radio dropdown tables are index-safe, with or without `JAPAN_MIC`: for each of the
Freq, BandWidth, TxPower and Interval dropdowns the number of options equals the length of
the argument table, the number leading the i-th option is the i-th table entry, the default
selection (2, 0, 6, 3; 0 for Freq under `JAPAN_MIC`) is a valid index, and for every index
the dropdown can report the table lookup of the callback is in bounds. -/
theorem radio_dropdown_tables_index_safe (JAPAN_MIC : Bool) :
    (option_count (radio_freq_list JAPAN_MIC) = (freq_list JAPAN_MIC).length ∧
      (option_numbers (radio_freq_list JAPAN_MIC)).map (fun n => (n : ℚ))
        = freq_list JAPAN_MIC ∧
      freq_index JAPAN_MIC < option_count (radio_freq_list JAPAN_MIC) ∧
      freq_index false = 2 ∧
      ∀ i, i < option_count (radio_freq_list JAPAN_MIC) →
        (radio_freq_cb JAPAN_MIC i).isSome = true) ∧
    (option_count radio_bandwidth_list = bandwidth_list.length ∧
      (option_numbers radio_bandwidth_list).map (fun n => (n : ℚ)) = bandwidth_list ∧
      bandwidth_default_sel = 0 ∧
      bandwidth_default_sel < option_count radio_bandwidth_list ∧
      ∀ i, i < option_count radio_bandwidth_list → (radio_bandwidth_cb i).isSome = true) ∧
    (option_count radio_power_level_list = radio_power_args_list.length ∧
      (option_numbers radio_power_level_list).map (fun n => (n : ℚ))
        = radio_power_args_list ∧
      power_default_sel = 6 ∧
      power_default_sel < option_count radio_power_level_list ∧
      ∀ i, i < option_count radio_power_level_list → (radio_power_cb i).isSome = true) ∧
    (option_count radio_tx_interval_list = radio_tx_interval_args_list.length ∧
      (option_numbers radio_tx_interval_list).map (fun n => (n : ℚ))
        = radio_tx_interval_args_list ∧
      interval_default_sel = 3 ∧
      interval_default_sel < option_count radio_tx_interval_list ∧
      ∀ i, i < option_count radio_tx_interval_list → (radio_interval_cb i).isSome = true) := by
  have hf : option_count (radio_freq_list JAPAN_MIC) = (freq_list JAPAN_MIC).length := by
    cases JAPAN_MIC <;> decide
  have hb : option_count radio_bandwidth_list = bandwidth_list.length := by decide
  have hp : option_count radio_power_level_list = radio_power_args_list.length := by decide
  have hi : option_count radio_tx_interval_list = radio_tx_interval_args_list.length := by
    decide
  refine ⟨⟨hf, ?_, ?_, rfl, ?_⟩, ⟨hb, by decide!, rfl, by decide, ?_⟩,
    ⟨hp, by decide!, rfl, by decide, ?_⟩, ⟨hi, by decide!, rfl, by decide, ?_⟩⟩
  · cases JAPAN_MIC <;> decide!
  · cases JAPAN_MIC <;> decide
  · intro i h
    rw [hf] at h
    exact getElem?_isSome_of_lt _ i h
  · intro i h
    rw [hb] at h
    exact getElem?_isSome_of_lt _ i h
  · intro i h
    rw [hp] at h
    unfold radio_power_cb
    rw [Option.isSome_map']
    exact getElem?_isSome_of_lt _ i h
  · intro i h
    rw [hi] at h
    unfold radio_interval_cb
    rw [Option.isSome_map']
    exact getElem?_isSome_of_lt _ i h

/-! ### Pool cursor and repeated initialisation -/

/-- Every pool call keeps the cursor below the capacity. -/
theorem pool_step_cursor_lt (s : PoolState) (op : PoolOp)
    (h : s.g_ui_memory_used < g_ui_memory_pool_size) :
    (pool_step s op).g_ui_memory_used < g_ui_memory_pool_size := by
  cases op with
  | init psram ram =>
    simp only [pool_step, ui_memory_pool_init, heap_emit]
    split
    · split <;> exact (by decide : 0 < g_ui_memory_pool_size)
    · exact h
  | alloc size fallback =>
    simp only [pool_step, ui_fast_malloc]
    split
    · rename_i hc
      exact hc.2
    · exact h
  | release ptr =>
    simp only [pool_step, ui_fast_free]
    split <;> exact h

theorem pool_run_cursor_lt (ops : List PoolOp) (s : PoolState)
    (h : s.g_ui_memory_used < g_ui_memory_pool_size) :
    (pool_run s ops).g_ui_memory_used < g_ui_memory_pool_size := by
  induction ops generalizing s with
  | nil => exact h
  | cons op rest ih => exact ih _ (pool_step_cursor_lt s op h)

/-- The part of the cursor bound that holds: in every state reached from program start by
`ui_memory_pool_init`, `ui_fast_malloc` (any `size_t` size) and `ui_fast_free` calls the
cursor is strictly below the capacity, so at most capacity - 1; a request with cursor plus
size exactly equal to the capacity is not served from the pool: `malloc` is called, its
pointer is returned and the cursor stays; and a request whose size, added to the cursor
without wrap-around, stays below the capacity ends at least one byte before the end of the
pool. Requests served after a wrap-around are not covered. -/
theorem pool_cursor_below_capacity (ops : List PoolOp) (s : PoolState)
    (size fallback : Nat) :
    (pool_run pool_startup ops).g_ui_memory_used < g_ui_memory_pool_size ∧
      (pool_run pool_startup ops).g_ui_memory_used ≤ g_ui_memory_pool_size - 1 ∧
      (s.g_ui_memory_used + size = g_ui_memory_pool_size →
        ui_fast_malloc size fallback s = (fallback, heap_emit (HeapCall.malloc size) s)) ∧
      (s.g_ui_memory_pool ≠ 0 →
        s.g_ui_memory_pool + g_ui_memory_pool_size < UINT32_MOD →
        s.g_ui_memory_used + size < g_ui_memory_pool_size →
        (ui_fast_malloc size fallback s).1 + size
          ≤ s.g_ui_memory_pool + (g_ui_memory_pool_size - 1)) := by
  have h := pool_run_cursor_lt ops pool_startup (by decide)
  refine ⟨h, Nat.le_sub_one_of_lt h, ?_, ?_⟩
  · intro heq
    apply ui_fast_malloc_of_rejected
    right
    unfold u32_add
    rw [heq]
    decide
  · intro hpool hvalid hfit
    rw [ui_fast_malloc_of_fits size fallback s hpool hvalid hfit]
    simp only []
    omega

/-- C23, evaluated at the failing input: on a fresh pool the requests of 20000, 4294954296
and 20000 bytes are all served from the pool, at offsets 0, 20000 and 7000, and `malloc` is
never called, because the sum of cursor and size wraps around in the second call. The first
and the third block alone hold 40000 bytes, more than the capacity, and the second block
starts inside the pool and extends over its last byte. -/
theorem pool_hands_out_more_than_capacity :
    ui_fast_malloc_seq [⟨20000, 0⟩, ⟨4294954296, 0⟩, ⟨20000, 0⟩]
        (ui_memory_pool_init 1065353216 0 pool_startup)
      = ([1065353216, 1065373216, 1065360216],
         { g_ui_memory_pool := 1065353216, g_ui_memory_used := 27000,
           heap_calls := [HeapCall.heap_caps_malloc 32768] }) ∧
      4294954296 < UINT32_MOD ∧
      g_ui_memory_pool_size - 1 < 20000 + 20000 ∧
      (1065373216 ≤ 1065353216 + (g_ui_memory_pool_size - 1) ∧
        1065353216 + (g_ui_memory_pool_size - 1) < 1065373216 + 4294954296) := by
  decide

/-- The part of the idempotence of `ui_memory_pool_init` that holds: for every state whose
pool pointer is non-null, a call made directly or through `ui_performance_init` leaves the
base address, the cursor and the heap log as they are, so the `ui_fast_malloc` call that
follows behaves as if the call had not been made: it is served at the unchanged cursor or by
`malloc`. Allocations after that one are not covered. -/
theorem ui_memory_pool_init_idempotent (ps : PerfState) (psram ram : Nat) (disp : Bool)
    (size fallback : Nat) (hpool : ps.pool.g_ui_memory_pool ≠ 0) :
    ui_memory_pool_init psram ram ps.pool = ps.pool ∧
      (ui_performance_init psram ram disp ps).pool = ps.pool ∧
      ui_fast_malloc size fallback (ui_memory_pool_init psram ram ps.pool)
        = ui_fast_malloc size fallback ps.pool ∧
      ui_fast_malloc size fallback (ui_performance_init psram ram disp ps).pool
        = ui_fast_malloc size fallback ps.pool ∧
      ((ui_fast_malloc size fallback (ui_performance_init psram ram disp ps).pool).1
          = fallback ∨
        (ui_fast_malloc size fallback (ui_performance_init psram ram disp ps).pool).1
          = u32_add ps.pool.g_ui_memory_pool ps.pool.g_ui_memory_used) := by
  have h1 : ui_memory_pool_init psram ram ps.pool = ps.pool := by
    unfold ui_memory_pool_init
    rw [if_neg hpool]
  have h2 : (ui_performance_init psram ram disp ps).pool = ps.pool := by
    unfold ui_performance_init ui_set_fast_refresh_rate perf_emit
    rw [h1]
    cases disp <;> cases ps.initialized <;> rfl
  refine ⟨h1, h2, by rw [h1], by rw [h2], ?_⟩
  rw [h2]
  unfold ui_fast_malloc
  split
  · exact Or.inr rfl
  · exact Or.inl rfl

/-- An instance of `ui_memory_pool_init_idempotent`: a pool at 1065353216 with 64 bytes
handed out; after a further `ui_performance_init` the next request of 64 bytes is served at
offset 64. -/
theorem ui_memory_pool_init_idempotent_witness :
    ui_memory_pool_init 1073741824 0
        { g_ui_memory_pool := 1065353216, g_ui_memory_used := 64, heap_calls := [] }
        = { g_ui_memory_pool := 1065353216, g_ui_memory_used := 64, heap_calls := [] } ∧
      (ui_fast_malloc 64 0 (ui_performance_init 1073741824 0 true
        { pool := { g_ui_memory_pool := 1065353216, g_ui_memory_used := 64, heap_calls := [] },
          initialized := true, perf_calls := [] }).pool).1 = 1065353280 :=
  ⟨(ui_memory_pool_init_idempotent
      { pool := { g_ui_memory_pool := 1065353216, g_ui_memory_used := 64, heap_calls := [] },
        initialized := true, perf_calls := [] } 1073741824 0 true 64 0 (by decide)).1,
    ((ui_memory_pool_init_idempotent
      { pool := { g_ui_memory_pool := 1065353216, g_ui_memory_used := 64, heap_calls := [] },
        initialized := true, perf_calls := [] } 1073741824 0 true 64 0
      (by decide)).2.2.2.1).symm ▸ (by decide)⟩

/-- C30, evaluated at the failing input: the first 100 bytes of a fresh pool are handed out
at 1065353216; a further `ui_memory_pool_init`, called directly or through
`ui_performance_init`, leaves base and cursor as they are; a request of 4294967246 bytes
then makes the sum of cursor and size wrap around to 50 and is served at offset 100, and the
next request of 10 bytes is served at offset 50, inside the block handed out first. -/
theorem ui_memory_pool_init_then_block_reissued :
    (ui_fast_malloc 100 0 (ui_memory_pool_init 1065353216 0 pool_startup)).1 = 1065353216 ∧
      ui_memory_pool_init 1073741824 0
          (ui_fast_malloc 100 0 (ui_memory_pool_init 1065353216 0 pool_startup)).2
        = { g_ui_memory_pool := 1065353216, g_ui_memory_used := 100,
            heap_calls := [HeapCall.heap_caps_malloc 32768] } ∧
      (ui_performance_init 1073741824 0 true
          { pool := (ui_fast_malloc 100 0 (ui_memory_pool_init 1065353216 0 pool_startup)).2,
            initialized := true, perf_calls := [] }).pool
        = { g_ui_memory_pool := 1065353216, g_ui_memory_used := 100,
            heap_calls := [HeapCall.heap_caps_malloc 32768] } ∧
      (ui_fast_malloc_seq [⟨4294967246, 0⟩, ⟨10, 0⟩]
          (ui_performance_init 1073741824 0 true
            { pool := (ui_fast_malloc 100 0 (ui_memory_pool_init 1065353216 0 pool_startup)).2,
              initialized := true, perf_calls := [] }).pool).1
        = [1065353316, 1065353266] ∧
      (1065353216 ≤ 1065353266 ∧ 1065353266 + 10 ≤ 1065353216 + 100) := by
  decide

/-! ### Debounce rule -/

/-- On `uint32_t` operands `u32_sub` is the difference reduced modulo `2 ^ 32`. -/
theorem u32_sub_eq_emod (a b : Nat) (ha : a < UINT32_MOD) (hb : b < UINT32_MOD) :
    (u32_sub a b : Int) = ((a : Int) - (b : Int)) % 4294967296 := by
  unfold u32_sub
  unfold UINT32_MOD at *
  omega

/-- C24. Exact debounce rule. `last_click_time` is 0 when `setupUI` returns. A click whose
tick satisfies `(tick - last_click_time) mod 2^32 < 300` is suppressed: the whole state,
`last_click_time` included, stays as it was. Any other click is processed: it sets
`last_click_time` to its tick, also when its target is null, and navigates to a non-null
target. `back_to_home_cb` leaves `last_click_time` alone. Hence the window counts from the
last accepted click, and the very first click is ignored when its tick is below 300. -/
theorem debounce_exact_rule (s : UIState) (tick : Nat) (disp : Bool)
    (target_page : Option Obj) (hasRadio : Bool) :
    (setupUI hasRadio).last_click_time = 0 ∧
      (u32_sub tick s.last_click_time < 300 →
        app_icon_cb tick disp target_page s = s) ∧
      (¬ u32_sub tick s.last_click_time < 300 →
        (app_icon_cb tick disp target_page s).last_click_time = tick ∧
        (app_icon_cb tick disp none s).last_click_time = tick ∧
        ∀ target o, target_page = some target →
          (app_icon_cb tick disp target_page s).hidden o =
            if o = target then false else if o ∈ containers then true else s.hidden o) ∧
      (tick < UINT32_MOD → s.last_click_time < UINT32_MOD →
        (u32_sub tick s.last_click_time : Int)
          = ((tick : Int) - (s.last_click_time : Int)) % 4294967296) ∧
      (back_to_home_cb s).last_click_time = s.last_click_time ∧
      (tick < 300 →
        app_icon_cb tick disp target_page (setupUI hasRadio) = setupUI hasRadio) := by
  refine ⟨by cases hasRadio <;> rfl, ?_, ?_, u32_sub_eq_emod _ _, rfl, ?_⟩
  · intro h
    exact app_icon_cb_of_debounced _ _ _ _ (by simp [debounced, h])
  · intro h
    have hacc : debounced tick s = false := by simp [debounced, h]
    refine ⟨app_icon_cb_last_click_time _ _ _ _ hacc,
      app_icon_cb_last_click_time _ _ _ _ hacc, ?_⟩
    rintro target o rfl
    exact app_icon_cb_hidden_accepted _ _ _ _ hacc o
  · intro h
    apply app_icon_cb_of_debounced
    have h0 : (setupUI hasRadio).last_click_time = 0 := by cases hasRadio <;> rfl
    simp only [debounced, h0, decide_eq_true_eq]
    unfold u32_sub UINT32_MOD
    omega

/-- C25. Debounce across tick wrap-around: after an accepted click at `uint32_t` tick `t0`,
a click that comes `d` milliseconds later, `0 <= d < 2^32`, carries the tick
`(t0 + d) mod 2^32` and is suppressed exactly when `d < 300`, also when that tick is
numerically smaller than `t0`. -/
theorem debounce_across_wraparound (s : UIState) (t0 d : Nat) (disp1 disp2 : Bool)
    (target1 target2 : Option Obj) (ht0 : t0 < UINT32_MOD) (hd : d < UINT32_MOD)
    (hacc : debounced t0 s = false) :
    debounced ((t0 + d) % UINT32_MOD) (app_icon_cb t0 disp1 target1 s) = decide (d < 300) ∧
      (d < 300 →
        app_icon_cb ((t0 + d) % UINT32_MOD) disp2 target2 (app_icon_cb t0 disp1 target1 s)
          = app_icon_cb t0 disp1 target1 s) ∧
      (¬ d < 300 →
        (app_icon_cb ((t0 + d) % UINT32_MOD) disp2 target2
          (app_icon_cb t0 disp1 target1 s)).last_click_time = (t0 + d) % UINT32_MOD) := by
  have hsub : u32_sub ((t0 + d) % UINT32_MOD) t0 = d := by
    unfold u32_sub
    unfold UINT32_MOD at *
    omega
  have hdeb : debounced ((t0 + d) % UINT32_MOD) (app_icon_cb t0 disp1 target1 s)
      = decide (d < 300) := by
    unfold debounced
    rw [app_icon_cb_last_click_time _ _ _ _ hacc, hsub]
  refine ⟨hdeb, ?_, ?_⟩
  · intro h
    exact app_icon_cb_of_debounced _ _ _ _ (by rw [hdeb]; exact decide_eq_true h)
  · intro h
    exact app_icon_cb_last_click_time _ _ _ _ (by rw [hdeb]; exact decide_eq_false h)

/-- Witness for C25: an accepted click at tick 4294967200; 200 ms later the tick has wrapped
to 104 and the click is suppressed. -/
theorem debounce_across_wraparound_witness :
    (4294967200 + 200) % UINT32_MOD = 104 ∧
      debounced 104 (app_icon_cb 4294967200 true (some Obj.sub_gps_page) (setupUI true))
        = true ∧
      app_icon_cb 104 true (some Obj.sub_sound_page)
          (app_icon_cb 4294967200 true (some Obj.sub_gps_page) (setupUI true))
        = app_icon_cb 4294967200 true (some Obj.sub_gps_page) (setupUI true) :=
  ⟨by decide,
    (debounce_across_wraparound (setupUI true) 4294967200 200 true true
      (some Obj.sub_gps_page) (some Obj.sub_sound_page) (by decide) (by decide)
      (by decide)).1,
    (debounce_across_wraparound (setupUI true) 4294967200 200 true true
      (some Obj.sub_gps_page) (some Obj.sub_sound_page) (by decide) (by decide)
      (by decide)).2.1 (by decide)⟩

/-! ### Battery staleness and buffer sizes -/

/-- One call on `uint16_t` values leaves `last_voltage` a `uint16_t` value within 10 of the
input. -/
theorem ui_update_battery_fast_near (s : BatteryState) (v : Nat) (hv : v < 65536)
    (hL : s.last_voltage < 65536) :
    (ui_update_battery_fast v s).last_voltage < 65536 ∧
      |((ui_update_battery_fast v s).last_voltage : Int) - (v : Int)| ≤ 10 := by
  unfold ui_update_battery_fast
  rw [c_abs_sub_uint16 v s.last_voltage hv hL]
  split
  · exact ⟨hv, by simp⟩
  · rename_i h
    refine ⟨hL, ?_⟩
    rw [abs_sub_comm]
    exact not_lt.mp h

/-- A call keeps the rendered text and the cached value in step. -/
theorem ui_update_battery_fast_text (s : BatteryState) (v : Nat) (hv : v < 65536)
    (ht : s.voltage_buf = Nat.repr s.last_voltage ++ " mV") :
    (ui_update_battery_fast v s).voltage_buf
      = Nat.repr (ui_update_battery_fast v s).last_voltage ++ " mV" := by
  unfold ui_update_battery_fast
  split
  · exact snprintf_voltage v hv
  · exact ht

theorem battery_run_uint16 (vs : List Nat) (s : BatteryState)
    (hL : s.last_voltage < 65536) (hvs : ∀ x, x ∈ vs → x < 65536) :
    (battery_run s vs).last_voltage < 65536 := by
  induction vs generalizing s with
  | nil => exact hL
  | cons x rest ih =>
    exact ih _ (ui_update_battery_fast_near s x (hvs x (List.mem_cons_self _ _)) hL).1
      (fun y hy => hvs y (List.mem_cons_of_mem _ hy))

theorem battery_run_text (vs : List Nat) (s : BatteryState)
    (hvs : ∀ x, x ∈ vs → x < 65536)
    (ht : s.voltage_buf = Nat.repr s.last_voltage ++ " mV") :
    (battery_run s vs).voltage_buf = Nat.repr (battery_run s vs).last_voltage ++ " mV" := by
  induction vs generalizing s with
  | nil => exact ht
  | cons x rest ih =>
    exact ih _ (fun y hy => hvs y (List.mem_cons_of_mem _ hy))
      (ui_update_battery_fast_text s x (hvs x (List.mem_cons_self _ _)) ht)

/-- C26. Bounded staleness of the battery field: after a call `ui_update_battery_fast(v)`,
from any prior state, `last_voltage` differs from `v` by at most 10; hence after any
sequence of `uint16_t` inputs the cached voltage is within 10 mV of the most recent input,
and the rendered text stays the text of the cached voltage. -/
theorem battery_bounded_staleness (s : BatteryState) (vs : List Nat) (v : Nat)
    (hL : s.last_voltage < 65536) (hvs : ∀ x, x ∈ vs → x < 65536) (hv : v < 65536) :
    |((ui_update_battery_fast v s).last_voltage : Int) - (v : Int)| ≤ 10 ∧
      |((battery_run s (vs ++ [v])).last_voltage : Int) - (v : Int)| ≤ 10 ∧
      (s.voltage_buf = Nat.repr s.last_voltage ++ " mV" →
        (battery_run s (vs ++ [v])).voltage_buf
          = Nat.repr (battery_run s (vs ++ [v])).last_voltage ++ " mV") := by
  refine ⟨(ui_update_battery_fast_near s v hv hL).2, ?_, ?_⟩
  · have hrun : battery_run s (vs ++ [v]) = ui_update_battery_fast v (battery_run s vs) := by
      simp [battery_run, List.foldl_append]
    rw [hrun]
    exact (ui_update_battery_fast_near _ v hv (battery_run_uint16 vs s hL hvs)).2
  · intro ht
    apply battery_run_text _ _ _ ht
    intro x hx
    rcases List.mem_append.mp hx with h | h
    · exact hvs x h
    · rw [List.mem_singleton.mp h]
      exact hv

/-- Witness for C26: a slow drift 3705, 3710, 3715 from a rendered 3700 mV; the first two
inputs are within the threshold and the third one is rendered. -/
theorem battery_bounded_staleness_witness :
    |((battery_run { last_voltage := 3700, voltage_buf := "3700 mV" }
        ([3705, 3710] ++ [3715])).last_voltage : Int) - (3715 : Int)| ≤ 10 ∧
      (battery_run { last_voltage := 3700, voltage_buf := "3700 mV" }
        [3705, 3710]).last_voltage = 3700 ∧
      (battery_run { last_voltage := 3700, voltage_buf := "3700 mV" }
        [3705, 3710, 3715]).voltage_buf = "3715 mV" :=
  ⟨(battery_bounded_staleness { last_voltage := 3700, voltage_buf := "3700 mV" }
      [3705, 3710] 3715 (by decide) (by decide) (by decide)).2.1,
    by decide, by decide⟩

/-- The decimal text of an `int32_t` value has at most 11 characters. -/
theorem int_repr_length_int32 (rssi : Int) (hlo : -2147483648 ≤ rssi)
    (hhi : rssi ≤ 2147483647) : (Int.repr rssi).length ≤ 11 := by
  cases rssi with
  | ofNat n =>
    have hn : n < 10 ^ 10 := by
      have : (n : Int) ≤ 2147483647 := hhi
      omega
    have := Nat.repr_length n 10 (by decide) hn
    show (Nat.repr n).length ≤ 11
    omega
  | negSucc n =>
    have hn : n + 1 < 10 ^ 10 := by
      have h := hlo
      rw [Int.negSucc_eq] at h
      omega
    have := Nat.repr_length (n + 1) 10 (by decide) hn
    show ("-" ++ Nat.repr (n + 1)).length ≤ 11
    rw [String.length_append]
    have h1 : ("-" : String).length = 1 := rfl
    omega

/-- A text of at most 15 characters is stored whole by `snprintf` into 16 bytes. -/
theorem snprintf_of_fits (text : String) (h : text.length ≤ 15) : snprintf 16 text = text := by
  unfold snprintf
  rw [List.take_of_length_le (by exact h)]

/-- C28. The static text buffers never overflow or truncate: for every `uint16_t` voltage
the text written by `ui_update_battery_fast`, and for every `int32_t` rssi and connection
flag the text written by `ui_update_wifi_fast`, has at most 15 characters, so `snprintf`
into the 16-byte buffer stores it whole and a call leaves at most 15 characters in the
buffer. -/
theorem static_text_buffers_fit (v : Nat) (rssi : Int) (connected : Bool)
    (b : BatteryState) (w : WifiState) (hv : v < 65536)
    (hlo : -2147483648 ≤ rssi) (hhi : rssi ≤ 2147483647) :
    ((Nat.repr v ++ " mV").length ≤ 15 ∧
      snprintf 16 (Nat.repr v ++ " mV") = Nat.repr v ++ " mV") ∧
    ((Int.repr rssi ++ " dBm").length ≤ 15 ∧
      snprintf 16 (Int.repr rssi ++ " dBm") = Int.repr rssi ++ " dBm") ∧
    NOT_AVAILABLE_TEXT.length ≤ 15 ∧
    (b.voltage_buf.length ≤ 15 → (ui_update_battery_fast v b).voltage_buf.length ≤ 15) ∧
    (w.rssi_buf.length ≤ 15 →
      (ui_update_wifi_fast rssi connected w).rssi_buf.length ≤ 15) := by
  have hvlen : (Nat.repr v ++ " mV").length ≤ 15 := by
    have := Nat.repr_length v 5 (by decide) (by omega)
    rw [String.length_append]
    have h3 : (" mV" : String).length = 3 := rfl
    omega
  have hrlen : (Int.repr rssi ++ " dBm").length ≤ 15 := by
    have := int_repr_length_int32 rssi hlo hhi
    rw [String.length_append]
    have h4 : (" dBm" : String).length = 4 := rfl
    omega
  have hna : NOT_AVAILABLE_TEXT.length ≤ 15 := by decide
  refine ⟨⟨hvlen, snprintf_of_fits _ hvlen⟩, ⟨hrlen, snprintf_of_fits _ hrlen⟩, hna, ?_, ?_⟩
  · intro hb
    unfold ui_update_battery_fast
    split
    · simp only []
      rw [snprintf_of_fits _ hvlen]
      exact hvlen
    · exact hb
  · intro hw
    unfold ui_update_wifi_fast
    split
    · cases connected
      · exact hna
      · simp only [if_true]
        rw [snprintf_of_fits _ hrlen]
        exact hrlen
    · exact hw

/-- Witness for C28: the longest texts, 65535 mV and -2147483648 dBm. -/
theorem static_text_buffers_fit_witness :
    (Nat.repr 65535 ++ " mV").length = 8 ∧
      (Int.repr (-2147483648) ++ " dBm").length = 15 ∧
      snprintf 16 (Int.repr (-2147483648) ++ " dBm") = "-2147483648 dBm" ∧
      (ui_update_wifi_fast (-2147483648) true wifi_startup).rssi_buf = "-2147483648 dBm" :=
  ⟨by decide, by decide,
    ((static_text_buffers_fit 65535 (-2147483648) true battery_startup wifi_startup
      (by decide) (by decide) (by decide)).2.1.2).trans (by decide),
    by decide⟩

/-! ### Tx/Rx switches -/

/-- With the message label set, a toggle succeeds, keeps the label handle and leaves the
other switch unchecked. -/
theorem radio_step_spec (s : RadioState) (t : SwitchToggle) (label : Obj)
    (hl : s.radio_label = some label) :
    ∃ s1, radio_step s t = some s1 ∧ s1.radio_label = some label ∧
      ¬ (s1.tx_checked = true ∧ s1.rx_checked = true) := by
  cases t with
  | toggle_tx =>
    refine ⟨_, by simp [radio_step, lv_radio_tx_event_cb, hl]; rfl, ?_, ?_⟩
    · rfl
    · simp
  | toggle_rx =>
    refine ⟨_, by simp [radio_step, lv_radio_rx_event_cb, hl]; rfl, ?_, ?_⟩
    · rfl
    · simp

theorem radio_run_spec (toggles : List SwitchToggle) (s : RadioState) (label : Obj)
    (hl : s.radio_label = some label)
    (hs : ¬ (s.tx_checked = true ∧ s.rx_checked = true)) :
    ∃ s1, radio_run s toggles = some s1 ∧
      ¬ (s1.tx_checked = true ∧ s1.rx_checked = true) := by
  induction toggles generalizing s with
  | nil => exact ⟨s, rfl, hs⟩
  | cons t rest ih =>
    obtain ⟨s1, h1, hl1, hs1⟩ := radio_step_spec s t label hl
    obtain ⟨s2, h2, hs2⟩ := ih s1 hl1 hs1
    exact ⟨s2, by simp [radio_run, h1, h2], hs2⟩

/-- C29. Tx/Rx mutual exclusion: starting from the switches as `setupUI` creates them with
`hasRadio` true (Tx checked, Rx unchecked), every sequence of user toggles of the two
switches, each followed by its value-changed handler, runs without touching a null handle
and ends in a state in which Tx and Rx are not both checked. -/
theorem tx_rx_never_both_checked (toggles : List SwitchToggle) :
    radio_after_setupUI.tx_checked = true ∧ radio_after_setupUI.rx_checked = false ∧
      ∃ s, radio_run radio_after_setupUI toggles = some s ∧
        ¬ (s.tx_checked = true ∧ s.rx_checked = true) :=
  ⟨rfl, rfl, radio_run_spec toggles radio_after_setupUI (Obj.other 0) rfl (by decide)⟩

end MainKeypad
